import Mathlib

/-!
Verification development for the Notepad2 Java and Vim lexers
(`scintilla/lexers/LexJava.cxx`, `scintilla/lexers/LexVim.cxx`).

The tokenizers and folders are embedded shallowly: a document is a
`List Char`, a style is a `Nat`, and the per-iteration body of each
C++ scanning loop becomes a Lean function on an explicit state record.
Iteration uses an explicit fuel argument; the fuel chosen for a whole
document is generous enough for every step of the scan (each loop body
either advances the position or performs one of the finitely many
`continue` transitions before advancing).

Helper routines that live outside the two lexer translation units
(style constants from `SciLexer.h`, the `LexerUtils`/`CharacterSet`/
`StyleContext` helpers) are modelled from the specification and are
marked `Modelled from the spec:` in their doc comments.
-/

namespace Notepad2

/-! ## Characters and character classes -/

/-- Null character used by the accessor for out-of-range reads. -/
def chNul : Char := Char.ofNat 0

/-- Left brace character. -/
def chLB : Char := Char.ofNat 123

/-- Right brace character. -/
def chRB : Char := Char.ofNat 125

/-- Backtick character. -/
def chBQ : Char := Char.ofNat 96

/-- Read a character of the document; out-of-range reads give NUL,
matching the Scintilla accessor. -/
def charAt (doc : List Char) (pos : Nat) : Char := doc.getD pos chNul

/-- Modelled from the spec: `IsEOLChar` of `CharacterSet.h`. -/
def isEOLChar (c : Char) : Bool := c = '\r' || c = '\n'

/-- Modelled from the spec: `IsADigit`. -/
def isADigit (c : Char) : Bool := '0' ≤ c && c ≤ '9'

/-- Modelled from the spec: `IsOctalDigit`. -/
def isOctalDigit (c : Char) : Bool := '0' ≤ c && c ≤ '7'

/-- Modelled from the spec: `IsHexDigit`. -/
def isHexDigit (c : Char) : Bool :=
  isADigit c || ('a' ≤ c && c ≤ 'f') || ('A' ≤ c && c ≤ 'F')

/-- Modelled from the spec: `IsOctalOrHex`. -/
def isOctalOrHex (c : Char) (hex : Bool) : Bool :=
  if hex then isHexDigit c else isOctalDigit c

/-- Modelled from the spec: `IsUpperCase`. -/
def isUpperCase (c : Char) : Bool := 'A' ≤ c && c ≤ 'Z'

/-- Modelled from the spec: `IsLowerCase`. -/
def isLowerCase (c : Char) : Bool := 'a' ≤ c && c ≤ 'z'

/-- Modelled from the spec: `IsAlpha`. -/
def isAlpha (c : Char) : Bool := isUpperCase c || isLowerCase c

/-- Modelled from the spec: `IsIdentifierChar` (ASCII letters, digits, `_`). -/
def isIdentifierChar (c : Char) : Bool := isAlpha c || isADigit c || c = '_'

/-- Modelled from the spec: `IsIdentifierStart`. -/
def isIdentifierStart (c : Char) : Bool := isAlpha c || c = '_'

/-- Modelled from the spec: `IsIdentifierCharEx` also accepts non-ASCII
identifier characters (bytes at and above 0x80). -/
def isIdentifierCharEx (c : Char) : Bool := isIdentifierChar c || 0x80 ≤ c.toNat

/-- Modelled from the spec: `IsIdentifierStartEx`. -/
def isIdentifierStartEx (c : Char) : Bool := isIdentifierStart c || 0x80 ≤ c.toNat

/-- Modelled from the spec: `isspacechar`. -/
def isSpaceChar (c : Char) : Bool :=
  c = ' ' || c = '\t' || c = '\n' || c = '\r' || c = Char.ofNat 11 || c = Char.ofNat 12

/-- Modelled from the spec: `IsASpaceOrTab`. -/
def isASpaceOrTab (c : Char) : Bool := c = ' ' || c = '\t'

/-- Modelled from the spec: `IsAGraphic` (printable, not space, ASCII). -/
def isAGraphic (c : Char) : Bool := 32 < c.toNat && c.toNat < 127

/-- Modelled from the spec: `IsInvalidUrlChar` — characters that cannot
occur inside a URL, ending `insideUrl` tracking. -/
def isInvalidUrlChar (c : Char) : Bool :=
  c.toNat ≤ 32 || c = '"' || c = '<' || c = '>' || c = '\\' || c = '^' ||
  c = chBQ || c = chLB || c = '|' || c = chRB || c.toNat = 127

/-- Modelled from the spec: `IsNumberStart` — a digit, or a dot followed
by a digit. -/
def isNumberStart (c cNext : Char) : Bool := isADigit c || (c = '.' && isADigit cNext)

/-- Modelled from the spec: the numeric-literal continuation predicate
`IsDecimalNumberEx` (identifier characters, dot, exponent sign after an
exponent letter). -/
def isDecimalNumberEx (cPrev c cNext : Char) : Bool :=
  isIdentifierCharEx c || c = '.' ||
  ((c = '+' || c = '-') && (cPrev = 'e' || cPrev = 'E' || cPrev = 'p' || cPrev = 'P'))

/-- Modelled from the spec: the Vim variant `IsDecimalNumber`. -/
def isDecimalNumber (cPrev c cNext : Char) : Bool :=
  isIdentifierChar c || c = '.' ||
  ((c = '+' || c = '-') && (cPrev = 'e' || cPrev = 'E'))

/-- Modelled from the spec: `IsCommentTagPrev` — a documentation tag must
be preceded by whitespace or a comment boundary character. -/
def isCommentTagPrev (c : Char) : Bool := c.toNat ≤ 32 || c = '*' || c = '/'

/-- Modelled from the spec: `IsJumpLabelPrevChar` — character classes that
may precede a jump-label definition. -/
def isJumpLabelPrevChar (c : Char) : Bool := c = chNul || c = ';' || c = chLB || c = chRB

/-- Modelled from the spec: ASCII lower-casing by setting bit 5
(the `UnsafeLower` helper). -/
def asciiLower (c : Char) : Char := Char.ofNat (c.toNat % 128 ||| 0x20)

/-! ## Style constants

Modelled from the spec: the numeric style identifiers of `SciLexer.h`.
The exact numbers are symbolic; the embedding preserves every ordering
relation the lexers rely on: the space-equivalent styles sit at or below
`SCE_JAVA_TASKMARKER`, the single-line string styles sit at or below
`SCE_JAVA_TEMPLATE`, and the two template styles follow
`DefaultNestedStateBaseStyle` (asserted by `static_assert` in the source). -/

def SCE_JAVA_DEFAULT : Nat := 0
def SCE_JAVA_COMMENTLINE : Nat := 1
def SCE_JAVA_COMMENTBLOCK : Nat := 2
def SCE_JAVA_COMMENTBLOCKDOC : Nat := 3
def SCE_JAVA_COMMENTTAGAT : Nat := 4
def SCE_JAVA_COMMENTTAGHTML : Nat := 5
def SCE_JAVA_TASKMARKER : Nat := 6
def SCE_JAVA_CHARACTER : Nat := 7
def SCE_JAVA_STRING : Nat := 8
def SCE_JAVA_TEMPLATE : Nat := 10
def SCE_JAVA_TRIPLE_TEMPLATE : Nat := 11
def SCE_JAVA_TRIPLE_STRING : Nat := 12
def SCE_JAVA_ESCAPECHAR : Nat := 13
def SCE_JAVA_FORMAT_SPECIFIER : Nat := 14
def SCE_JAVA_PLACEHOLDER : Nat := 15
def SCE_JAVA_NUMBER : Nat := 16
def SCE_JAVA_OPERATOR : Nat := 17
def SCE_JAVA_OPERATOR2 : Nat := 18
def SCE_JAVA_IDENTIFIER : Nat := 19
def SCE_JAVA_ANNOT : Nat := 20
def SCE_JAVA_WORD : Nat := 21
def SCE_JAVA_WORD2 : Nat := 22
def SCE_JAVA_DIRECTIVE : Nat := 23
def SCE_JAVA_CLASS : Nat := 24
def SCE_JAVA_INTERFACE : Nat := 25
def SCE_JAVA_ENUM : Nat := 26
def SCE_JAVA_CONSTANT : Nat := 27
def SCE_JAVA_RECORD : Nat := 28
def SCE_JAVA_LABEL : Nat := 29
def SCE_JAVA_FUNCTION : Nat := 30
def SCE_JAVA_FUNCTION_DEFINITION : Nat := 31

/-- Space-equivalent styles of the Java lexer (`IsSpaceEquiv` in
`LexJava.cxx`): default, the comment styles and the task marker. -/
def IsSpaceEquiv (state : Nat) : Bool := state ≤ SCE_JAVA_TASKMARKER

/-- Line-state bit: the line is entirely a line comment (`LexJava.cxx`). -/
def JavaLineStateMaskLineComment : Nat := 1

/-- Line-state bit: the line is an import line (`LexJava.cxx`). -/
def JavaLineStateMaskImport : Nat := 2

/-- KeywordType values of `LexJava.cxx`: `None = SCE_JAVA_DEFAULT`, the
class-like values coincide with their style numbers, and
`Return`/`While` are 0x40/0x41. -/
def KT_None : Nat := SCE_JAVA_DEFAULT
def KT_Annotation : Nat := SCE_JAVA_ANNOT
def KT_Class : Nat := SCE_JAVA_CLASS
def KT_Interface : Nat := SCE_JAVA_INTERFACE
def KT_Enum : Nat := SCE_JAVA_ENUM
def KT_Record : Nat := SCE_JAVA_RECORD
def KT_Label : Nat := SCE_JAVA_LABEL
def KT_Return : Nat := 0x40
def KT_While : Nat := 0x41

/-! ## Packed nested-state line words (LexerUtils)

`LexJava.cxx` documents the layout of the packed word it stores shifted
left by 8 into the per-line state: 3 bits of stack-depth count followed
by the nested states, 3 bits per state, up to 4 states
(`3: nestedState count / 3*4: nestedState`). -/

/-- Modelled from the spec: `DefaultNestedStateBaseStyle`; the source
asserts `DefaultNestedStateBaseStyle + 1 == SCE_JAVA_TEMPLATE`. -/
def DefaultNestedStateBaseStyle : Nat := SCE_JAVA_TEMPLATE - 1

/-- Maximum nested-state stack depth representable in the packed word
(four 3-bit slots). -/
def MaxNestedStateCount : Nat := 4

/-- Modelled from the spec: encode one nested state into its 3-bit slot.
States at or below the base style (only `SCE_JAVA_DEFAULT` is pushed)
encode to 0; the template styles encode to their offset from the base. -/
def packNestedValue (s : Nat) : Nat :=
  if s ≤ DefaultNestedStateBaseStyle then 0 else s - DefaultNestedStateBaseStyle

/-- Modelled from the spec: decode one 3-bit slot back to a state. -/
def unpackNestedValue (v : Nat) : Nat :=
  if v = 0 then SCE_JAVA_DEFAULT else v + DefaultNestedStateBaseStyle

/-- Encode a list of nested states into consecutive 3-bit slots,
first element in the lowest slot. -/
def packNestedSlots : List Nat → Nat
  | [] => 0
  | s :: rest => packNestedValue s + 8 * packNestedSlots rest

/-- Modelled from the spec: `PackLineState` — the depth count (clamped to
`MaxNestedStateCount`) in the low 3 bits, then the states in 3-bit slots. -/
def PackLineState (nestedState : List Nat) : Nat :=
  let kept := nestedState.take MaxNestedStateCount
  kept.length + 8 * packNestedSlots kept

/-- Decode `count` 3-bit slots into a list of nested states. -/
def unpackNestedSlots : Nat → Nat → List Nat
  | 0, _ => []
  | count + 1, w => unpackNestedValue (w % 8) :: unpackNestedSlots count (w / 8)

/-- Modelled from the spec: `UnpackLineState`, inverse of `PackLineState`
for stacks up to the representable depth. -/
def UnpackLineState (lineState : Nat) : List Nat :=
  unpackNestedSlots (lineState % 8) (lineState / 8)

/-- Modelled from the spec: `TakeAndPop` — remove and return the most
recently pushed nested state. -/
def TakeAndPop (nestedState : List Nat) : Nat × List Nat :=
  (nestedState.getLastD SCE_JAVA_DEFAULT, nestedState.dropLast)

/-- States the Java lexer ever pushes on its nested-state stack:
the two template styles (at `\x7b`-interpolation inside a template) and
the default style (at a bare opening brace inside an interpolation). -/
def isPushableNestedState (s : Nat) : Bool :=
  s = SCE_JAVA_DEFAULT || s = SCE_JAVA_TEMPLATE || s = SCE_JAVA_TRIPLE_TEMPLATE

/-! ## Document geometry (the Scintilla accessor's line bookkeeping) -/

/-- Character before a position; NUL at the start of the document. -/
def chPrevAt (doc : List Char) (pos : Nat) : Char :=
  if pos = 0 then chNul else charAt doc (pos - 1)

/-- Line number containing a position: newlines strictly before it. -/
def currentLineOf (doc : List Char) (pos : Nat) : Nat := (doc.take pos).count '\n'

/-- Start-position helper scanning `line` newlines. -/
def lineStartGo : List Char → Nat → Nat → Nat
  | _, 0, pos => pos
  | [], _ + 1, pos => pos
  | c :: rest, line + 1, pos =>
      lineStartGo rest (if c = '\n' then line else line + 1) (pos + 1)

/-- Start position of a line (document length when past the last line). -/
def lineStart (doc : List Char) (line : Nat) : Nat := lineStartGo doc line 0

/-- Position is at the start of a line. -/
def jAtLineStart (doc : List Char) (pos : Nat) : Bool :=
  pos = 0 || chPrevAt doc pos = '\n'

/-- Position is the last position of its line within `[0, endPos)`
(the newline character itself, or the final position of the range). -/
def jAtLineEnd (doc : List Char) (endPos pos : Nat) : Bool :=
  charAt doc pos = '\n' || endPos ≤ pos + 1

/-- First character of a list that is not whitespace (NUL when none). -/
def firstNonSpace : List Char → Char
  | [] => chNul
  | c :: rest => if isSpaceChar c then firstNonSpace rest else c

/-- Modelled from the spec: `StyleContext::GetDocNextChar` — the next
non-whitespace document character at or after a position. -/
def getDocNextChar (doc : List Char) (start : Nat) : Char :=
  firstNonSpace (doc.drop start)

/-- First character of a list on the current line that is not a space or
tab (NUL at line end). -/
def firstNonBlankOnLine : List Char → Char
  | [] => chNul
  | c :: rest =>
      if isASpaceOrTab c then firstNonBlankOnLine rest
      else if isEOLChar c then chNul else c

/-- Modelled from the spec: `StyleContext::GetLineNextChar` — the next
non-blank character on the current line at or after a position. -/
def getLineNextChar (doc : List Char) (start : Nat) : Char :=
  firstNonBlankOnLine (doc.drop start)

/-- Position reached after skipping spaces and tabs. -/
def skipTabSpaceGo : List Char → Nat → Nat
  | [], pos => pos
  | c :: rest, pos => if isASpaceOrTab c then skipTabSpaceGo rest (pos + 1) else pos

/-- Position of the first non-blank character at or after `pos`. -/
def skipTabSpace (doc : List Char) (pos : Nat) : Nat :=
  skipTabSpaceGo (doc.drop pos) pos

/-- Position reached after skipping decimal digits. -/
def skipDigitsGo : List Char → Nat → Nat
  | [], pos => pos
  | c :: rest, pos => if isADigit c then skipDigitsGo rest (pos + 1) else pos

/-- Position of the first non-digit character at or after `pos`. -/
def skipDigits (doc : List Char) (pos : Nat) : Nat :=
  skipDigitsGo (doc.drop pos) pos

/-- Format-specifier flag characters of `CheckFormatSpecifier`. -/
def isFormatFlag (c : Char) : Bool :=
  c = ' ' || c = '+' || c = '-' || c = '#' || c = '0' || c = '(' || c = ','

/-- Position reached after skipping format-specifier flag characters. -/
def skipFlagsGo : List Char → Nat → Nat
  | [], pos => pos
  | c :: rest, pos => if isFormatFlag c then skipFlagsGo rest (pos + 1) else pos

/-- Position of the first non-flag character at or after `pos`. -/
def skipFlags (doc : List Char) (pos : Nat) : Nat :=
  skipFlagsGo (doc.drop pos) pos

/-- Document characters starting at `pos` match the given word. -/
def matchAt (doc : List Char) (pos : Nat) (w : List Char) : Bool :=
  (doc.drop pos).take w.length = w

/-- Text of the pending token `[a, b)`, truncated to 127 characters as
`StyleContext::GetCurrent` does with its 128-byte buffer. -/
def currentText (doc : List Char) (a b : Nat) : String :=
  String.mk ((doc.drop a).take (min (b - a) 127))

/-! ## Escape-sequence cursor (`EscapeSequence` of both lexers) -/

/-- Transient escape-sequence state: remaining digits, radix and the
style to restore (`EscapeSequence` in the source). -/
structure EscapeSequence where
  outerState : Nat := SCE_JAVA_DEFAULT
  digitsLeft : Nat := 0
  hex : Bool := false
deriving Repr, DecidableEq

/-- Source `EscapeSequence::resetEscapeState` of `LexJava.cxx`: refuse EOL,
otherwise one highlighted character, five hex digits after `u`, or three
octal digits after an octal digit (the default branch leaves the radix
flag unchanged, as the C++ does). -/
def javaResetEscapeState (esc : EscapeSequence) (state : Nat) (chNext : Char) :
    Option EscapeSequence :=
  if isEOLChar chNext then none
  else if chNext = 'u' then some { outerState := state, digitsLeft := 5, hex := true }
  else if isOctalDigit chNext then some { outerState := state, digitsLeft := 3, hex := false }
  else some { outerState := state, digitsLeft := 1, hex := esc.hex }

/-- Source `EscapeSequence::atEscapeEnd` (both lexers): decrement the digit
count; the escape ends when it reaches zero or the character fails the
radix predicate. -/
def atEscapeEnd (esc : EscapeSequence) (ch : Char) : Bool × EscapeSequence :=
  let esc' : EscapeSequence := { esc with digitsLeft := esc.digitsLeft - 1 }
  (esc'.digitsLeft = 0 || !isOctalOrHex ch esc'.hex, esc')

/-! ## Java format specifiers (`CheckFormatSpecifier`) -/

/-- Source `IsFormatSpecifier` of `LexJava.cxx`. -/
def IsFormatSpecifier (c : Char) : Bool :=
  c = 'a' || c = 'A' || c = 'b' || c = 'B' || c = 'c' || c = 'C' || c = 'd' ||
  c = 'e' || c = 'E' || c = 'f' || c = 'g' || c = 'G' || c = 'h' || c = 'H' ||
  c = 'n' || c = 'o' || c = 's' || c = 'S' || c = 'x' || c = 'X'

/-- Source `IsDateTimeFormatSpecifier` of `LexJava.cxx`. -/
def IsDateTimeFormatSpecifier (c : Char) : Bool :=
  c = 'H' || c = 'I' || c = 'k' || c = 'l' || c = 'M' || c = 'S' || c = 'L' ||
  c = 'N' || c = 'p' || c = 'z' || c = 'Z' || c = 's' || c = 'Q' ||
  c = 'B' || c = 'b' || c = 'h' || c = 'A' || c = 'a' || c = 'C' || c = 'Y' ||
  c = 'y' || c = 'j' || c = 'm' || c = 'd' || c = 'e' ||
  c = 'R' || c = 'T' || c = 'r' || c = 'D' || c = 'F' || c = 'c'

/-- Source `CheckFormatSpecifier` of `LexJava.cxx`: length of the
`java.util.Formatter` specifier starting at the `%` at `pos`, 0 if none. -/
def CheckFormatSpecifier (doc : List Char) (pos : Nat) (insideUrl : Bool) : Nat :=
  let chPrev := chPrevAt doc pos
  let chNext := charAt doc (pos + 1)
  if chNext = '%' then 2
  else if insideUrl ∧ isHexDigit chNext then 0
  else if isASpaceOrTab chNext ∧ isADigit chPrev then 0
  else
    let p0 := pos + 1
    let p1 := if chNext = '<' then p0 + 1 else p0
    let p2 := skipDigits doc p1
    let p3 := if charAt doc p2 = '$' ∧ isADigit chNext then p2 + 1 else p2
    let p4 := skipFlags doc p3
    let p5 := skipDigits doc p4
    let p6 := if charAt doc p5 = '.' then skipDigits doc (p5 + 1) else p5
    let c := charAt doc p6
    if (c = 't' ∨ c = 'T') ∧ IsDateTimeFormatSpecifier (charAt doc (p6 + 1)) then
      p6 - pos + 2
    else if IsFormatSpecifier c then p6 - pos + 1
    else 0

/-- Source `MatchSealed` of `LexJava.cxx`: at `pos` (just after `non-s`) the
characters read `ealed` followed by a space-or-lower character or a
slash, within the current line. -/
def MatchSealed (doc : List Char) (pos endPos : Nat) : Bool :=
  let s := (doc.drop pos).take (min (endPos - pos) 7)
  if (String.mk s).take 5 = "ealed" then
    let c := s.getD 5 chNul
    c.toNat ≤ 32 || c = '/'
  else false

/-! ## Java keyword lists -/

/-- Keyword categories consumed by `ColouriseJavaDoc` (the keyword-set
oracle, one membership list per category). -/
structure JavaKeywordLists where
  kwlKeyword : List String := []
  kwlType : List String := []
  kwlDirective : List String := []
  kwlClassList : List String := []
  kwlInterfaceList : List String := []
  kwlEnumList : List String := []
  kwlConstant : List String := []
deriving Repr

/-! ## Java tokenizer state and loop body -/

/-- Whole scanner state of `ColouriseJavaDoc`: the `StyleContext`
position/state/pending-token window, the committed styles, and every
local variable of the C++ function. -/
structure JState where
  pos : Nat
  state : Nat
  styleStartPos : Nat
  styles : List Nat
  lineStateLineType : Nat
  insideUrl : Bool
  kwType : Nat
  chBeforeId : Char
  nested : List Nat
  visibleChars : Nat
  chBefore : Char
  visibleCharsBefore : Nat
  chPrevNonWhite : Char
  docTagState : Nat
  esc : EscapeSequence
  lineStates : List Nat
deriving Repr, DecidableEq

/-- Commit the pending token `[styleStartPos, pos)` with the current
state (`LexAccessor::ColourTo` as performed by `SetState`). -/
def jCommit (st : JState) : JState :=
  { st with styles := st.styles ++ List.replicate (st.pos - st.styleStartPos) st.state,
            styleStartPos := st.pos }

/-- Method `StyleContext::SetState`. -/
def jSetState (st : JState) (s : Nat) : JState := { jCommit st with state := s }

/-- Method `StyleContext::ChangeState` (retag the pending token). -/
def jChangeState (st : JState) (s : Nat) : JState := { st with state := s }

/-- Method `StyleContext::Forward` or `Advance` by `n`. -/
def jForward (st : JState) (n : Nat) : JState := { st with pos := st.pos + n }

/-- Method `StyleContext::ForwardSetState`. -/
def jForwardSetState (st : JState) (s : Nat) : JState := jSetState (jForward st 1) s

/-- Length of the pending token (`StyleContext::LengthCurrent`). -/
def jLengthCurrent (st : JState) : Nat := st.pos - st.styleStartPos

/-- Modelled from the spec: `HighlightTaskMarker` of `LexerUtils` — a
TODO-style word at an identifier boundary inside a comment is restyled
as a task marker without changing the enclosing comment style; returns
`none` when no marker starts here. -/
def highlightTaskMarker (doc : List Char) (st : JState) (markerStyle : Nat) :
    Option JState :=
  if isUpperCase (charAt doc st.pos) ∧ ¬ isIdentifierChar (chPrevAt doc st.pos) then
    match ["TODO", "FIXME", "HACK", "XXX", "NOTE"].find? (fun w =>
        matchAt doc st.pos w.toList &&
        !isIdentifierChar (charAt doc (st.pos + w.length))) with
    | some w =>
        let s0 := st.state
        let st := jSetState st markerStyle
        some (jSetState (jForward st w.length) s0)
    | none => none
  else none

/-- Keyword classification of an accumulated identifier found in the
`Keyword` list (`LexJava.cxx` lines 260–288): style it `WORD`, set
the import-line flag, set the keyword-triggered mode, and drop class-like
modes not followed by an identifier. -/
def javaKeywordBranch (doc : List Char) (st : JState) (s : String) : JState :=
  let st := jChangeState st SCE_JAVA_WORD
  let st :=
    if s = "import" then
      if st.visibleChars = jLengthCurrent st then
        { st with lineStateLineType := JavaLineStateMaskImport } else st
    else if s = "class" ∨ s = "new" ∨ s = "extends" ∨ s = "instanceof" ∨ s = "throws" then
      { st with kwType := KT_Class }
    else if s = "interface" ∨ s = "implements" then { st with kwType := KT_Interface }
    else if s = "enum" then { st with kwType := KT_Enum }
    else if s = "record" then { st with kwType := KT_Record }
    else if s = "break" ∨ s = "continue" then { st with kwType := KT_Label }
    else if s = "return" ∨ s = "yield" then { st with kwType := KT_Return }
    else if s = "if" ∨ s = "while" then { st with kwType := KT_While }
    else st
  if 0 < st.kwType ∧ st.kwType < KT_Return then
    if ¬ isIdentifierStartEx (getDocNextChar doc st.pos) then
      { st with kwType := KT_None } else st
  else st

/-- Structural heuristics at identifier end (`LexJava.cxx` lines
313–346): keyword-triggered class styles, the parenthesized-cast rule,
function call/definition detection and the generic/declaration rules. -/
def javaIdentEndHeuristic (doc : List Char) (st : JState) : JState :=
  let ch := charAt doc st.pos
  let chNext := charAt doc (st.pos + 1)
  if 0 < st.kwType ∧ st.kwType < KT_Return then jChangeState st st.kwType
  else
    let chNextD := getDocNextChar doc (st.pos + (if ch = ')' then 1 else 0))
    if ch = ')' then
      if st.chBeforeId = '(' ∧
          (chNextD = '(' ∨ (st.kwType ≠ KT_While ∧ isIdentifierCharEx chNextD)) then
        jChangeState st SCE_JAVA_CLASS
      else st
    else if chNextD = '(' then
      if st.kwType ≠ KT_Return ∧ (isIdentifierCharEx st.chBefore ∨ st.chBefore = ']') then
        jChangeState st SCE_JAVA_FUNCTION_DEFINITION
      else jChangeState st SCE_JAVA_FUNCTION
    else if (ch = '[' ∧ chNext = ']') ∨ (ch = '<' ∧ (chNext = '>' ∨ chNext = '?')) ∨
        (st.chBeforeId = '<' ∧ (chNextD = '>' ∨ chNextD = '<')) ∨
        isIdentifierStartEx chNextD then
      jChangeState st SCE_JAVA_CLASS
    else st

/-- Identifier termination (`LexJava.cxx` lines 250–352): classify the
accumulated text against the keyword categories and the structural
heuristics, then reset the keyword mode and return to the default
state; the result flag is `true` when the C++ `continue`s. -/
def javaIdentEnd (kw : JavaKeywordLists) (doc : List Char) (st : JState) : JState × Bool :=
  let s := currentText doc st.styleStartPos st.pos
  let c0 := s.toList.getD 0 chNul
  if c0 = '@' ∧ s ≠ "@interface" then (jChangeState st SCE_JAVA_ANNOT, true)
  else
    let ch := charAt doc st.pos
    let st :=
      if c0 = '@' then { jChangeState st SCE_JAVA_WORD with kwType := KT_Annotation }
      else if kw.kwlKeyword.contains s then javaKeywordBranch doc st s
      else if ch = '-' ∧ charAt doc (st.pos + 1) = 's' ∧ s = "non" ∧
          MatchSealed doc (st.pos + 2) (lineStart doc (currentLineOf doc st.pos + 1)) then
        jForward (jChangeState st SCE_JAVA_WORD) 7
      else if kw.kwlType.contains s then jChangeState st SCE_JAVA_WORD2
      else if kw.kwlDirective.contains s then jChangeState st SCE_JAVA_DIRECTIVE
      else if kw.kwlClassList.contains s then jChangeState st SCE_JAVA_CLASS
      else if kw.kwlInterfaceList.contains s then jChangeState st SCE_JAVA_INTERFACE
      else if kw.kwlEnumList.contains s then jChangeState st SCE_JAVA_ENUM
      else if kw.kwlConstant.contains s then jChangeState st SCE_JAVA_CONSTANT
      else if ch = ':' then
        if charAt doc (st.pos + 1) = ':' then jChangeState st SCE_JAVA_CLASS
        else if isJumpLabelPrevChar st.chBefore then jChangeState st SCE_JAVA_LABEL
        else st
      else if ch ≠ '.' then javaIdentEndHeuristic doc st
      else st
    let st :=
      if st.state ≠ SCE_JAVA_WORD ∧ charAt doc st.pos ≠ '.' then
        { st with kwType := KT_None } else st
    (jSetState st SCE_JAVA_DEFAULT, false)

/-- The `SCE_JAVA_IDENTIFIER`/`SCE_JAVA_ANNOT` case of the main switch. -/
def javaIdentCase (kw : JavaKeywordLists) (doc : List Char) (st : JState) : JState × Bool :=
  let ch := charAt doc st.pos
  if isIdentifierCharEx ch then (st, false)
  else if st.state = SCE_JAVA_ANNOT then
    if ch = '.' ∨ ch = '$' then
      (jForwardSetState (jSetState st SCE_JAVA_OPERATOR) SCE_JAVA_ANNOT, true)
    else
      (jSetState { st with kwType := KT_None } SCE_JAVA_DEFAULT, false)
  else javaIdentEnd kw doc st

/-- The documentation-comment case of the main switch (`LexJava.cxx`
lines 373–419): close pending doc-tag spans, then recognize the comment
close, at-tags, inline at-tags and pseudo-HTML tags. -/
def javaDocCommentCase (doc : List Char) (st : JState) : JState × Bool :=
  let st :=
    if st.docTagState = 1 then { st with docTagState := 0 }
    else if st.docTagState = 2 then
      if charAt doc st.pos = chRB then
        jForwardSetState (jSetState { st with docTagState := 0 } SCE_JAVA_COMMENTTAGAT)
          SCE_JAVA_COMMENTBLOCKDOC
      else st
    else if st.docTagState = 3 ∨ st.docTagState = 4 then
      if (charAt doc st.pos = '/' ∧ charAt doc (st.pos + 1) = '>') ∨
          charAt doc st.pos = '>' then
        let st := jSetState { st with docTagState := 0 } SCE_JAVA_COMMENTTAGHTML
        let st := jForward st (if charAt doc st.pos = '/' then 2 else 1)
        jSetState st SCE_JAVA_COMMENTBLOCKDOC
      else st
    else st
  let ch := charAt doc st.pos
  let chNext := charAt doc (st.pos + 1)
  if ch = '*' ∧ chNext = '/' then
    (jForwardSetState (jForward st 1) SCE_JAVA_DEFAULT, false)
  else if ch = '@' ∧ isAlpha chNext ∧ isCommentTagPrev (chPrevAt doc st.pos) then
    (jSetState { st with docTagState := 1 } SCE_JAVA_COMMENTTAGAT, false)
  else if ch = chLB ∧ chNext = '@' ∧ isAlpha (charAt doc (st.pos + 2)) then
    (jForward (jSetState { st with docTagState := 2 } SCE_JAVA_COMMENTTAGAT) 1, false)
  else if ch = '<' then
    if isAlpha chNext then (jSetState { st with docTagState := 3 } SCE_JAVA_COMMENTTAGHTML, false)
    else if chNext = '/' ∧ isAlpha (charAt doc (st.pos + 2)) then
      (jForward (jSetState { st with docTagState := 4 } SCE_JAVA_COMMENTTAGHTML) 1, false)
    else (st, false)
  else
    match highlightTaskMarker doc st SCE_JAVA_TASKMARKER with
    | some st' => (st', true)
    | none => (st, false)

/-- The string/character/template case of the main switch (`LexJava.cxx`
lines 429–473). -/
def javaStringCase (doc : List Char) (st : JState) : JState × Bool :=
  let ch := charAt doc st.pos
  let chNext := charAt doc (st.pos + 1)
  if jAtLineStart doc st.pos ∧ st.state ≤ SCE_JAVA_TEMPLATE then
    (jSetState st SCE_JAVA_DEFAULT, false)
  else if ch = '\\' then
    if chNext = chLB ∧ (st.state = SCE_JAVA_TEMPLATE ∨ st.state = SCE_JAVA_TRIPLE_TEMPLATE) then
      let st := { st with nested := st.nested ++ [st.state] }
      (jForward (jSetState st SCE_JAVA_OPERATOR2) 1, false)
    else
      match javaResetEscapeState st.esc st.state chNext with
      | some e => (jForward (jSetState { st with esc := e } SCE_JAVA_ESCAPECHAR) 1, false)
      | none => (st, false)
  else if ch = '\'' ∧ st.state = SCE_JAVA_CHARACTER then
    (jForwardSetState st SCE_JAVA_DEFAULT, false)
  else if st.state ≠ SCE_JAVA_CHARACTER then
    if ch = '%' then
      let len := CheckFormatSpecifier doc st.pos st.insideUrl
      if len ≠ 0 then
        let s0 := st.state
        let st := jSetState st SCE_JAVA_FORMAT_SPECIFIER
        (jSetState (jForward st len) s0, true)
      else (st, false)
    else if ch = chLB then
      if isADigit chNext then
        (jSetState { st with esc := { st.esc with outerState := st.state } }
          SCE_JAVA_PLACEHOLDER, false)
      else (st, false)
    else if ch = '"' ∧ (st.state ≤ SCE_JAVA_TEMPLATE ∨
        (chNext = '"' ∧ charAt doc (st.pos + 2) = '"')) then
      let st := if SCE_JAVA_TEMPLATE < st.state then jForward st 2 else st
      (jForwardSetState st SCE_JAVA_DEFAULT, false)
    else if ch = ':' ∧ chNext = '/' ∧ charAt doc (st.pos + 2) = '/' ∧
        isLowerCase (chPrevAt doc st.pos) then
      ({ st with insideUrl := true }, false)
    else if st.insideUrl ∧ isInvalidUrlChar ch then ({ st with insideUrl := false }, false)
    else (st, false)
  else (st, false)

/-- Token-start dispatch in the default state (`LexJava.cxx` lines
497–546). -/
def javaDefaultDispatch (doc : List Char) (st : JState) : JState × Bool :=
  let ch := charAt doc st.pos
  let chNext := charAt doc (st.pos + 1)
  if ch = '/' ∧ chNext = '/' then
    let st := { st with visibleCharsBefore := st.visibleChars }
    let st := jSetState st SCE_JAVA_COMMENTLINE
    (if st.visibleChars = 0 then
      { st with lineStateLineType := JavaLineStateMaskLineComment } else st, false)
  else if ch = '/' ∧ chNext = '*' then
    let st := { st with visibleCharsBefore := st.visibleChars, docTagState := 0 }
    let st := jForward (jSetState st SCE_JAVA_COMMENTBLOCK) 2
    let st :=
      if charAt doc st.pos = '*' ∧ charAt doc (st.pos + 1) ≠ '*' then
        jChangeState st SCE_JAVA_COMMENTBLOCKDOC
      else st
    (st, true)
  else if ch = '"' then
    let st := { st with insideUrl := false }
    let isTpl := chPrevAt doc st.pos = '.'
    if chNext = '"' ∧ charAt doc (st.pos + 2) = '"' then
      (jForward (jSetState st
        (if isTpl then SCE_JAVA_TRIPLE_TEMPLATE else SCE_JAVA_TRIPLE_STRING)) 2, false)
    else
      (jSetState st (if isTpl then SCE_JAVA_TEMPLATE else SCE_JAVA_STRING), false)
  else if ch = '\'' then (jSetState st SCE_JAVA_CHARACTER, false)
  else if isNumberStart ch chNext then (jSetState st SCE_JAVA_NUMBER, false)
  else if isIdentifierStartEx ch ∨ (ch = '@' ∧ chNext = 'i') then
    let st := { st with
      chBefore := st.chPrevNonWhite,
      chBeforeId := if st.chPrevNonWhite ≠ '.' then st.chPrevNonWhite else st.chBeforeId }
    (jSetState st SCE_JAVA_IDENTIFIER, false)
  else if ch = '@' ∧ isIdentifierStartEx chNext then (jSetState st SCE_JAVA_ANNOT, false)
  else if isAGraphic ch ∧ ch ≠ '\\' then
    let st := jSetState st SCE_JAVA_OPERATOR
    if st.nested ≠ [] then
      let st := jChangeState st SCE_JAVA_OPERATOR2
      if ch = chLB then ({ st with nested := st.nested ++ [SCE_JAVA_DEFAULT] }, false)
      else if ch = chRB then
        let p := TakeAndPop st.nested
        (jForwardSetState { st with nested := p.2 } p.1, true)
      else (st, false)
    else (st, false)
  else (st, false)

/-- Per-iteration housekeeping and advance (`LexJava.cxx` lines
548–565): count visible characters, remember the previous non-white
character, and persist the composed line-state word at line end. -/
def jFinish (doc : List Char) (endPos : Nat) (st : JState) : JState :=
  let ch := charAt doc st.pos
  let st :=
    if ¬ isSpaceChar ch then
      { st with
        visibleChars := st.visibleChars + 1,
        chPrevNonWhite := if ¬ IsSpaceEquiv st.state then ch else st.chPrevNonWhite }
    else st
  let st :=
    if jAtLineEnd doc endPos st.pos then
      let w :=
        if st.nested ≠ [] then st.lineStateLineType ||| (PackLineState st.nested <<< 8)
        else st.lineStateLineType
      { st with
        lineStates := st.lineStates ++ [w], lineStateLineType := 0,
        visibleChars := 0, visibleCharsBefore := 0, docTagState := 0, kwType := KT_None }
    else st
  { st with pos := st.pos + 1 }

/-- One execution of the `while (sc.More())` loop body of
`ColouriseJavaDoc`: the state switch, the default-state token-start
dispatch, then (unless the body `continue`d) housekeeping and advance. -/
def javaBody (kw : JavaKeywordLists) (doc : List Char) (endPos : Nat) (st : JState) : JState :=
  let step : JState × Bool :=
    if st.state = SCE_JAVA_OPERATOR ∨ st.state = SCE_JAVA_OPERATOR2 then
      (jSetState st SCE_JAVA_DEFAULT, false)
    else if st.state = SCE_JAVA_NUMBER then
      if ¬ isDecimalNumberEx (chPrevAt doc st.pos) (charAt doc st.pos)
          (charAt doc (st.pos + 1)) then
        (jSetState st SCE_JAVA_DEFAULT, false)
      else (st, false)
    else if st.state = SCE_JAVA_IDENTIFIER ∨ st.state = SCE_JAVA_ANNOT then
      javaIdentCase kw doc st
    else if st.state = SCE_JAVA_COMMENTLINE then
      if jAtLineStart doc st.pos then (jSetState st SCE_JAVA_DEFAULT, false)
      else ((highlightTaskMarker doc st SCE_JAVA_TASKMARKER).getD st, false)
    else if st.state = SCE_JAVA_COMMENTBLOCK then
      if charAt doc st.pos = '*' ∧ charAt doc (st.pos + 1) = '/' then
        (jForwardSetState (jForward st 1) SCE_JAVA_DEFAULT, false)
      else
        match highlightTaskMarker doc st SCE_JAVA_TASKMARKER with
        | some st' => (st', true)
        | none => (st, false)
    else if st.state = SCE_JAVA_COMMENTBLOCKDOC then javaDocCommentCase doc st
    else if st.state = SCE_JAVA_COMMENTTAGAT ∨ st.state = SCE_JAVA_COMMENTTAGHTML then
      let ch := charAt doc st.pos
      if ¬ (isIdentifierChar ch ∨ ch = '-' ∨ ch = ':') then
        (jSetState st SCE_JAVA_COMMENTBLOCKDOC, true)
      else (st, false)
    else if st.state = SCE_JAVA_CHARACTER ∨ st.state = SCE_JAVA_STRING ∨
        st.state = SCE_JAVA_TEMPLATE ∨ st.state = SCE_JAVA_TRIPLE_TEMPLATE ∨
        st.state = SCE_JAVA_TRIPLE_STRING then
      javaStringCase doc st
    else if st.state = SCE_JAVA_ESCAPECHAR then
      let p := atEscapeEnd st.esc (charAt doc st.pos)
      let st := { st with esc := p.2 }
      if p.1 then (jSetState st st.esc.outerState, true) else (st, false)
    else if st.state = SCE_JAVA_PLACEHOLDER then
      let ch := charAt doc st.pos
      if isADigit ch then (st, false)
      else if ch = chRB then (jSetState (jForward st 1) st.esc.outerState, true)
      else (jSetState (jChangeState st st.esc.outerState) st.esc.outerState, true)
    else (st, false)
  match step with
  | (st, true) => st
  | (st, false) =>
      let next : JState × Bool :=
        if st.state = SCE_JAVA_DEFAULT then javaDefaultDispatch doc st else (st, false)
      if next.2 then next.1 else jFinish doc endPos next.1

/-- Fuel-indexed iteration of the Java loop body while the position is
inside the range. -/
def runJava (kw : JavaKeywordLists) (doc : List Char) (endPos : Nat) :
    Nat → JState → JState
  | 0, st => st
  | fuel + 1, st =>
      if st.pos < endPos then runJava kw doc endPos fuel (javaBody kw doc endPos st)
      else st

/-- Fuel sufficient for a whole scan: the body advances the position in
every iteration except the bounded `continue` chains. -/
def javaFuel (doc : List Char) : Nat := 4 * doc.length + 16

/-- Method `StyleContext::Complete`: commit the final pending token. -/
def jComplete (endPos : Nat) (st : JState) : JState :=
  { st with styles := st.styles ++ List.replicate (endPos - st.styleStartPos) st.state,
            styleStartPos := endPos }

/-- Initial scanner state at a position. -/
def jInitState (startPos initStyle : Nat) (nested : List Nat) (chPrevNW : Char) : JState :=
  { pos := startPos, state := initStyle, styleStartPos := startPos, styles := [],
    lineStateLineType := 0, insideUrl := false, kwType := KT_None, chBeforeId := chNul,
    nested := nested, visibleChars := 0, chBefore := chNul, visibleCharsBefore := 0,
    chPrevNonWhite := chPrevNW, docTagState := 0, esc := {}, lineStates := [] }

/-- Full-document scan of `ColouriseJavaDoc` from position 0 (shebang
check included). -/
def ColouriseJavaDoc (kw : JavaKeywordLists) (doc : List Char) : JState :=
  let st := jInitState 0 SCE_JAVA_DEFAULT [] chNul
  let st :=
    if charAt doc 0 = '#' ∧ charAt doc 1 = '!' then
      { jForward (jSetState st SCE_JAVA_COMMENTLINE) 1 with
        lineStateLineType := JavaLineStateMaskLineComment }
    else st
  jComplete doc.length (runJava kw doc doc.length (javaFuel doc) st)

/-- Modelled from the spec: `LookbackNonWhite` of `LexerUtils` — scan
backward from `startPos - 1` for the first position whose style is not
space-equivalent and return its character (NUL when none is found). -/
def LookbackNonWhite (doc : List Char) (styles : List Nat) (startPos : Nat) : Char :=
  match (((List.range (startPos - 1)).map (· + 1)).reverse).find?
      (fun i => decide (SCE_JAVA_TASKMARKER < styles.getD i 0)) with
  | some i => charAt doc i
  | none => chNul

/-- Resumed scan of `ColouriseJavaDoc` from the start of `startLine`:
the initial style is the style of the preceding character, the
nested-state stack is recovered from the persisted word of the previous
line, and for a space-equivalent initial style the previous non-white
character is recovered by backward scan (`LexJava.cxx` lines 203–225). -/
def ResumeJavaDoc (kw : JavaKeywordLists) (doc : List Char) (startLine : Nat)
    (prefixStyles : List Nat) (prevLineState : Nat) : JState :=
  let startPos := lineStart doc startLine
  let initStyle := prefixStyles.getD (startPos - 1) SCE_JAVA_DEFAULT
  let nested :=
    if startLine ≠ 0 ∧ prevLineState >>> 8 ≠ 0 then UnpackLineState (prevLineState >>> 8)
    else []
  let chPrevNW :=
    if startPos ≠ 0 ∧ IsSpaceEquiv initStyle then LookbackNonWhite doc prefixStyles startPos
    else chNul
  jComplete doc.length
    (runJava kw doc doc.length (javaFuel doc) (jInitState startPos initStyle nested chPrevNW))

/-- Styles assigned by a full Java scan, one per character. -/
def javaStyles (kw : JavaKeywordLists) (doc : List Char) : List Nat :=
  (ColouriseJavaDoc kw doc).styles

/-- Line-state words persisted by a full Java scan, one per line. -/
def javaLineStates (kw : JavaKeywordLists) (doc : List Char) : List Nat :=
  (ColouriseJavaDoc kw doc).lineStates

/-! ## Vim lexer (`LexVim.cxx`) -/

def SCE_VIM_DEFAULT : Nat := 0
def SCE_VIM_COMMENTLINE : Nat := 1
def SCE_VIM_WORD : Nat := 2
def SCE_VIM_WORD_DEMOTED : Nat := 3
def SCE_VIM_COMMANDS : Nat := 4
def SCE_VIM_STRING_DQ : Nat := 5
def SCE_VIM_STRING_SQ : Nat := 6
def SCE_VIM_ESCAPECHAR : Nat := 7
def SCE_VIM_NUMBER : Nat := 8
def SCE_VIM_OPERATOR : Nat := 9
def SCE_VIM_IDENTIFIER : Nat := 10
def SCE_VIM_REGEX : Nat := 11
def SCE_VIM_BLOB_HEX : Nat := 12
def SCE_VIM_ENV_VARIABLE : Nat := 13
def SCE_VIM_OPTION : Nat := 14
def SCE_VIM_REGISTER : Nat := 15
def SCE_VIM_FUNCTION : Nat := 16

/-- Line-state bits of `LexVim.cxx`. -/
def VimLineStateMaskLineComment : Nat := 1
def VimLineStateMaskLineContinuation : Nat := 2
def VimLineStateMaskAutoCommand : Nat := 4
def VimLineStateMaskVim9Script : Nat := 8

/-- Source `IsVimEscapeChar` of `LexVim.cxx`. -/
def isVimEscapeChar (c : Char) : Bool :=
  c = '\\' || c = '"' || c = 'b' || c = 'e' || c = 'f' || c = 'n' || c = 'r' || c = 't'

/-- Source `EscapeSequence::resetEscapeState` of `LexVim.cxx`. -/
def vimResetEscapeState (chNext : Char) : Option EscapeSequence :=
  let p : Nat × Bool :=
    if chNext = 'x' ∨ chNext = 'X' then (3, true)
    else if chNext = 'u' then (5, true)
    else if chNext = 'U' then (9, true)
    else if isOctalDigit chNext then (3, false)
    else if isVimEscapeChar chNext then (1, true)
    else (0, true)
  if p.1 ≠ 0 then
    some { outerState := SCE_VIM_STRING_DQ, digitsLeft := p.1, hex := p.2 }
  else none

/-- Keyword categories consumed by `ColouriseVimDoc`. -/
structure VimKeywordLists where
  kwlKeyword : List String := []
  kwlCommand : List String := []
deriving Repr

/-- Whole scanner state of `ColouriseVimDoc`. -/
structure VState where
  pos : Nat
  state : Nat
  styleStartPos : Nat
  styles : List Nat
  lineState : Nat
  lineVisibleChars : Nat
  logicalVisibleChars : Int
  kwType : Nat
  preferRegex : Bool
  insideRegexRange : Bool
  esc : EscapeSequence
  lineStates : List Nat
deriving Repr, DecidableEq

/-- Commit the pending token with the current state (Vim). -/
def vCommit (st : VState) : VState :=
  { st with styles := st.styles ++ List.replicate (st.pos - st.styleStartPos) st.state,
            styleStartPos := st.pos }

/-- Method `StyleContext::SetState` (Vim). -/
def vSetState (st : VState) (s : Nat) : VState := { vCommit st with state := s }

/-- Method `StyleContext::ChangeState` (Vim). -/
def vChangeState (st : VState) (s : Nat) : VState := { st with state := s }

/-- Method `StyleContext::Forward` (Vim). -/
def vForward (st : VState) (n : Nat) : VState := { st with pos := st.pos + n }

/-- Method `StyleContext::ForwardSetState` (Vim). -/
def vForwardSetState (st : VState) (s : Nat) : VState := vSetState (vForward st 1) s

/-- Method `StyleContext::LengthCurrent` (Vim). -/
def vLengthCurrent (st : VState) : Nat := st.pos - st.styleStartPos

/-- Identifier termination of `ColouriseVimDoc` (lines 110–147):
keywords are demoted unless they open the logical line outside an
autocommand, commands at line start handle `syn`/`vim9script`, and an
identifier followed by `(` is a function. -/
def vimIdentEnd (kw : VimKeywordLists) (doc : List Char) (st : VState) : VState :=
  let kwPrev := st.kwType
  let st := { st with kwType := 0 }
  let s := currentText doc st.styleStartPos st.pos
  let st :=
    if kw.kwlKeyword.contains s then
      if st.lineState &&& VimLineStateMaskAutoCommand = 0 ∧
          st.logicalVisibleChars = (vLengthCurrent st : Int) then
        let st := vChangeState st SCE_VIM_WORD
        if s = "au" ∨ s = "autocmd" then
          { st with lineState := st.lineState ||| VimLineStateMaskAutoCommand }
        else if s = "export" then { st with kwType := 1 }
        else st
      else
        if kwPrev = 1 ∧ s = "def" then vChangeState st SCE_VIM_WORD
        else vChangeState st SCE_VIM_WORD_DEMOTED
    else if kw.kwlCommand.contains s then
      let st := vChangeState st SCE_VIM_COMMANDS
      if st.lineVisibleChars = vLengthCurrent st then
        if s = "syn" ∨ s = "syntax" then
          let c := getLineNextChar doc st.pos
          { st with preferRegex := c = 'm' ∨ c = 'r' }
        else if s = "vim9script" then
          { st with lineState := st.lineState ||| VimLineStateMaskVim9Script }
        else st
      else st
    else if getLineNextChar doc st.pos = '(' then vChangeState st SCE_VIM_FUNCTION
    else st
  vSetState st SCE_VIM_DEFAULT

/-- Token-start dispatch in the Vim default state (lines 217–259):
a double quote opens a string after visible content on the logical line
or in vim9script mode and a comment otherwise; `#` is a vim9 comment at
a space boundary; plus strings, blobs, numbers, variables, registers,
identifiers, regexes and operators (the pipe resets the logical line). -/
def vimDefaultDispatch (doc : List Char) (st : VState) : VState :=
  let ch := charAt doc st.pos
  let chNext := charAt doc (st.pos + 1)
  if ch = '"' then
    let target :=
      if st.logicalVisibleChars ≠ 0 ∨ st.lineState &&& VimLineStateMaskVim9Script ≠ 0 then
        SCE_VIM_STRING_DQ
      else SCE_VIM_COMMENTLINE
    let st := vSetState st target
    if st.lineVisibleChars = 0 ∧ target = SCE_VIM_COMMENTLINE then
      { st with lineState := st.lineState ||| VimLineStateMaskLineComment }
    else st
  else if ch = '#' then
    let st := vSetState st
      (if (chPrevAt doc st.pos).toNat ≤ 32 then SCE_VIM_COMMENTLINE else SCE_VIM_OPERATOR)
    if st.lineVisibleChars = 0 then
      { st with lineState := st.lineState ||| VimLineStateMaskLineComment }
    else st
  else if ch = '\'' then vSetState st SCE_VIM_STRING_SQ
  else if ch = '0' ∧ asciiLower chNext = 'z' then vSetState st SCE_VIM_BLOB_HEX
  else if isNumberStart ch chNext then vSetState st SCE_VIM_NUMBER
  else if (ch = '$' ∨ ch = '&') ∧ isIdentifierChar chNext then
    vForward (vSetState st (if ch = '$' then SCE_VIM_ENV_VARIABLE else SCE_VIM_OPTION)) 1
  else if ch = '@' then vForward (vSetState st SCE_VIM_REGISTER) 1
  else if ch = '\\' ∧ st.logicalVisibleChars ≠ 0 then vForward st 1
  else if isIdentifierStart ch then
    if chNext = ':' ∧ isLowerCase ch then
      vForwardSetState (vSetState st SCE_VIM_ENV_VARIABLE) SCE_VIM_OPERATOR
    else vSetState st SCE_VIM_IDENTIFIER
  else if ch = '/' ∧ st.preferRegex ∧ ¬ isEOLChar chNext then
    vSetState { st with insideRegexRange := false } SCE_VIM_REGEX
  else if isAGraphic ch then
    let st := vSetState st SCE_VIM_OPERATOR
    if ch = '|' ∧ chNext ≠ '|' ∧ st.lineState &&& VimLineStateMaskAutoCommand = 0 then
      { st with logicalVisibleChars := -1 }
    else st
  else st

/-- Per-iteration housekeeping and advance of `ColouriseVimDoc` (lines
262–281): visible-character counting (a leading `:` is ignored, a
leading `\` marks line continuation, any other first visible character
clears the autocommand flag), and the line-state persist at line end. -/
def vFinish (doc : List Char) (endPos : Nat) (st : VState) : VState :=
  let ch := charAt doc st.pos
  let st :=
    if ¬ isSpaceChar ch ∧ ¬ (st.lineVisibleChars = 0 ∧ ch = ':') then
      let st :=
        if st.lineVisibleChars = 0 then
          if ch = '\\' then
            { st with lineState := st.lineState ||| VimLineStateMaskLineContinuation }
          else
            { st with lineState :=
                st.lineState - (st.lineState &&& VimLineStateMaskAutoCommand) }
        else st
      { st with
        lineVisibleChars := st.lineVisibleChars + 1,
        logicalVisibleChars := st.logicalVisibleChars + 1 }
    else st
  let st :=
    if jAtLineEnd doc endPos st.pos then
      { st with
        lineStates := st.lineStates ++ [st.lineState],
        lineState := st.lineState &&& (VimLineStateMaskAutoCommand ||| VimLineStateMaskVim9Script),
        lineVisibleChars := 0, logicalVisibleChars := 0, preferRegex := false }
    else st
  { st with pos := st.pos + 1 }

/-- One execution of the `while (sc.More())` loop body of
`ColouriseVimDoc`. -/
def vimBody (kw : VimKeywordLists) (doc : List Char) (endPos : Nat) (st : VState) : VState :=
  let step : VState × Bool :=
    if st.state = SCE_VIM_OPERATOR then (vSetState st SCE_VIM_DEFAULT, false)
    else if st.state = SCE_VIM_NUMBER then
      if ¬ isDecimalNumber (chPrevAt doc st.pos) (charAt doc st.pos)
          (charAt doc (st.pos + 1)) then
        (vSetState st SCE_VIM_DEFAULT, false)
      else (st, false)
    else if st.state = SCE_VIM_IDENTIFIER then
      if ¬ isIdentifierChar (charAt doc st.pos) then (vimIdentEnd kw doc st, false)
      else (st, false)
    else if st.state = SCE_VIM_STRING_DQ then
      if jAtLineStart doc st.pos then (vSetState st SCE_VIM_DEFAULT, false)
      else if charAt doc st.pos = '\\' then
        match vimResetEscapeState (charAt doc (st.pos + 1)) with
        | some e => (vForward (vSetState { st with esc := e } SCE_VIM_ESCAPECHAR) 1, false)
        | none => (vForward st 1, false)
      else if charAt doc st.pos = '"' then (vForwardSetState st SCE_VIM_DEFAULT, false)
      else (st, false)
    else if st.state = SCE_VIM_ESCAPECHAR then
      let p := atEscapeEnd st.esc (charAt doc st.pos)
      let st := { st with esc := p.2 }
      if p.1 then (vSetState st SCE_VIM_STRING_DQ, true) else (st, false)
    else if st.state = SCE_VIM_STRING_SQ then
      if jAtLineStart doc st.pos then (vSetState st SCE_VIM_DEFAULT, false)
      else if charAt doc st.pos = '\'' then
        if charAt doc (st.pos + 1) = '\'' then
          (vForwardSetState (vForward (vSetState st SCE_VIM_ESCAPECHAR) 1) SCE_VIM_STRING_SQ, true)
        else (vForwardSetState st SCE_VIM_DEFAULT, false)
      else (st, false)
    else if st.state = SCE_VIM_REGEX then
      if jAtLineStart doc st.pos then (vSetState st SCE_VIM_DEFAULT, false)
      else if charAt doc st.pos = '\\' then (vForward st 1, false)
      else if charAt doc st.pos = '[' ∨ charAt doc st.pos = ']' then
        ({ st with insideRegexRange := charAt doc st.pos = '[' }, false)
      else if charAt doc st.pos = '/' ∧ ¬ st.insideRegexRange then
        (vForwardSetState st SCE_VIM_DEFAULT, false)
      else (st, false)
    else if st.state = SCE_VIM_COMMENTLINE then
      if jAtLineStart doc st.pos then (vSetState st SCE_VIM_DEFAULT, false)
      else (st, false)
    else if st.state = SCE_VIM_BLOB_HEX then
      if ¬ (isIdentifierChar (charAt doc st.pos) ∨ charAt doc st.pos = '.') then
        (vSetState st SCE_VIM_DEFAULT, false)
      else (st, false)
    else if st.state = SCE_VIM_ENV_VARIABLE ∨ st.state = SCE_VIM_OPTION ∨
        st.state = SCE_VIM_REGISTER then
      if ¬ isIdentifierChar (charAt doc st.pos) then (vSetState st SCE_VIM_DEFAULT, false)
      else (st, false)
    else (st, false)
  match step with
  | (st, true) => st
  | (st, false) =>
      let st := if st.state = SCE_VIM_DEFAULT then vimDefaultDispatch doc st else st
      vFinish doc endPos st

/-- Fuel-indexed iteration of the Vim loop body. -/
def runVim (kw : VimKeywordLists) (doc : List Char) (endPos : Nat) :
    Nat → VState → VState
  | 0, st => st
  | fuel + 1, st =>
      if st.pos < endPos then runVim kw doc endPos fuel (vimBody kw doc endPos st)
      else st

/-- Fuel sufficient for a whole Vim scan. -/
def vimFuel (doc : List Char) : Nat := 4 * doc.length + 16

/-- Method `StyleContext::Complete` (Vim). -/
def vComplete (endPos : Nat) (st : VState) : VState :=
  { st with styles := st.styles ++ List.replicate (endPos - st.styleStartPos) st.state,
            styleStartPos := endPos }

/-- Initial Vim scanner state at a position. -/
def vInitState (startPos initStyle lineState : Nat) : VState :=
  { pos := startPos, state := initStyle, styleStartPos := startPos, styles := [],
    lineState := lineState, lineVisibleChars := 0, logicalVisibleChars := 0,
    kwType := 0, preferRegex := false, insideRegexRange := false, esc := {},
    lineStates := [] }

/-- Full-document scan of `ColouriseVimDoc` from position 0 (shebang
check included). -/
def ColouriseVimDoc (kw : VimKeywordLists) (doc : List Char) : VState :=
  let st := vInitState 0 SCE_VIM_DEFAULT 0
  let st :=
    if charAt doc 0 = '#' ∧ charAt doc 1 = '!' then
      { vForward (vSetState st SCE_VIM_COMMENTLINE) 1 with
        lineState := VimLineStateMaskLineComment }
    else st
  vComplete doc.length (runVim kw doc doc.length (vimFuel doc) st)

/-- Styles assigned by a full Vim scan, one per character. -/
def vimStyles (kw : VimKeywordLists) (doc : List Char) : List Nat :=
  (ColouriseVimDoc kw doc).styles

/-- Line-state words persisted by a full Vim scan, one per line. -/
def vimLineStates (kw : VimKeywordLists) (doc : List Char) : List Nat :=
  (ColouriseVimDoc kw doc).lineStates

/-! ## Folders (`FoldJavaDoc`, `FoldVimDoc`) -/

/-- Scintilla fold-level base (`SC_FOLDLEVELBASE`). -/
def SC_FOLDLEVELBASE : Nat := 0x400

/-- Scintilla fold-header flag (`SC_FOLDLEVELHEADERFLAG`). -/
def SC_FOLDLEVELHEADERFLAG : Nat := 0x2000

/-- Packed fold-level record written at each line boundary by both
folders: current depth in the low 16 bits, next depth in the high 16
bits, header flag when the current depth is below the next depth
(`LexJava.cxx` lines 652–656, `LexVim.cxx` lines 342–346). -/
def mkFoldLevel (levelUse levelNext : Nat) : Nat :=
  let lev := levelUse ||| (levelNext <<< 16)
  if levelUse < levelNext then lev ||| SC_FOLDLEVELHEADERFLAG else lev

/-- Modelled from the spec: `CheckBraceOnNextLine` of `LexerUtils` — the
position of the opening brace when the next line opens (after blanks)
with an operator-styled brace, 0 otherwise. -/
def checkBraceOnNextLine (doc : List Char) (styles : List Nat) (line : Nat) : Nat :=
  let p := skipTabSpace doc (lineStart doc (line + 1))
  if charAt doc p = chLB ∧ styles.getD p 0 = SCE_JAVA_OPERATOR then p else 0

/-- Loop state of `FoldJavaDoc`: the position/style window, the depth
counters, the decoded per-line flags of the previous and current line,
and the records written so far. -/
structure JFoldState where
  startPos : Nat
  lineCurrent : Nat
  lineStartNext : Nat
  levelCurrent : Nat
  levelNext : Nat
  fpComment : Nat
  fpImport : Nat
  fcComment : Nat
  fcImport : Nat
  style : Nat
  styleNext : Nat
  visibleChars : Nat
  records : List Nat
deriving Repr, DecidableEq

/-- Line-boundary work of `FoldJavaDoc` (lines 635–665): clamp the next
depth to the base, propagate comment-run and import-run deltas, apply
the next-line-brace lookahead when the line had visible content, write
the packed record and rotate the per-line flags. -/
def javaFoldBoundary (doc : List Char) (styles lineStates : List Nat) (endPos : Nat)
    (st : JFoldState) : JFoldState :=
  let wNext := lineStates.getD (st.lineCurrent + 1) 0
  let fnComment := wNext &&& 1
  let fnImport := (wNext >>> 1) &&& 1
  let st := { st with levelNext := max st.levelNext SC_FOLDLEVELBASE }
  let st :=
    if st.fcComment ≠ 0 then
      { st with levelNext := st.levelNext + fnComment - st.fpComment }
    else if st.fcImport ≠ 0 then
      { st with levelNext := st.levelNext + fnImport - st.fpImport }
    else if st.visibleChars ≠ 0 then
      let bracePos := checkBraceOnNextLine doc styles st.lineCurrent
      if bracePos ≠ 0 then
        { st with
          levelNext := st.levelNext + 1, startPos := bracePos + 1,
          style := SCE_JAVA_OPERATOR, styleNext := styles.getD (bracePos + 1) 0 }
      else st
    else st
  let lev := mkFoldLevel st.levelCurrent st.levelNext
  { st with
    records := st.records ++ [lev],
    lineCurrent := st.lineCurrent + 1,
    lineStartNext := min (lineStart doc (st.lineCurrent + 2)) endPos,
    levelCurrent := st.levelNext,
    fpComment := st.fcComment, fpImport := st.fcImport,
    fcComment := fnComment, fcImport := fnImport,
    visibleChars := 0 }

/-- Depth adjustment for one processed character of `FoldJavaDoc`
(lines 608–634): multi-line comment/string style transitions and
operator-styled brackets, then the visible-character flag. -/
def javaFoldScanChar (doc : List Char) (styles : List Nat) (st : JFoldState) : JFoldState :=
  let stylePrev := st.style
  let style := st.styleNext
  let startPos := st.startPos + 1
  let st : JFoldState := { st with
              style := style, styleNext := styles.getD startPos 0,
              startPos := startPos }
  let st :=
    if style = SCE_JAVA_COMMENTBLOCK ∨ style = SCE_JAVA_COMMENTBLOCKDOC ∨
        style = SCE_JAVA_TRIPLE_STRING ∨ style = SCE_JAVA_TRIPLE_TEMPLATE then
      let st := if style ≠ stylePrev then { st with levelNext := st.levelNext + 1 } else st
      if style ≠ st.styleNext then { st with levelNext := st.levelNext - 1 } else st
    else if style = SCE_JAVA_OPERATOR ∨ style = SCE_JAVA_OPERATOR2 then
      let ch := charAt doc (startPos - 1)
      if ch = chLB ∨ ch = '[' ∨ ch = '(' then { st with levelNext := st.levelNext + 1 }
      else if ch = chRB ∨ ch = ']' ∨ ch = ')' then { st with levelNext := st.levelNext - 1 }
      else st
    else st
  if st.visibleChars = 0 ∧ ¬ IsSpaceEquiv style then
    { st with visibleChars := st.visibleChars + 1 }
  else st

/-- One iteration of the `while (startPos < endPos)` loop of
`FoldJavaDoc` (lines 603–667). -/
def javaFoldStep (doc : List Char) (styles lineStates : List Nat) (endPos : Nat)
    (st : JFoldState) : JFoldState :=
  let st := javaFoldScanChar doc styles st
  if st.startPos = st.lineStartNext then javaFoldBoundary doc styles lineStates endPos st
  else st

/-- Fuel-indexed iteration of the Java folder loop. -/
def runJavaFold (doc : List Char) (styles lineStates : List Nat) (endPos : Nat) :
    Nat → JFoldState → JFoldState
  | 0, st => st
  | fuel + 1, st =>
      if st.startPos < endPos then
        runJavaFold doc styles lineStates endPos fuel (javaFoldStep doc styles lineStates endPos st)
      else st

/-- Full-document run of `FoldJavaDoc`: the per-line packed fold levels. -/
def FoldJavaDoc (doc : List Char) (styles lineStates : List Nat) : List Nat :=
  let endPos := doc.length
  let st0 : JFoldState :=
    { startPos := 0, lineCurrent := 0,
      lineStartNext := min (lineStart doc 1) endPos,
      levelCurrent := SC_FOLDLEVELBASE, levelNext := SC_FOLDLEVELBASE,
      fpComment := 0, fpImport := 0,
      fcComment := (lineStates.getD 0 0) &&& 1,
      fcImport := ((lineStates.getD 0 0) >>> 1) &&& 1,
      style := 0, styleNext := styles.getD 0 0, visibleChars := 0, records := [] }
  (runJavaFold doc styles lineStates endPos (endPos + 2) st0).records

/-- Loop state of `FoldVimDoc`. -/
structure VFoldState where
  startPos : Nat
  lineCurrent : Nat
  lineStartNext : Nat
  levelCurrent : Nat
  levelNext : Nat
  fpComment : Nat
  fcComment : Nat
  fcCont : Nat
  styleNext : Nat
  wordBuf : String
  records : List Nat
deriving Repr, DecidableEq

/-- Fold words of `FoldVimDoc`: `if`/`while`/`for`/`try`/`def` and
`fun…` open a level, `end…` closes one. -/
def vimFoldWordDelta (buf : String) (levelNext : Nat) : Nat :=
  if buf = "if" ∨ buf = "while" ∨ buf = "for" ∨ buf = "try" ∨ buf = "def" ∨
      buf.take 3 = "fun" then
    levelNext + 1
  else if buf.take 3 = "end" then levelNext - 1
  else levelNext

/-- One iteration of the `while (startPos < endPos)` loop of
`FoldVimDoc` (lines 316–358); the record is written unconditionally
(the source skips the write when the stored level is unchanged, which
does not affect the resulting levels). -/
def vimFoldStep (doc : List Char) (styles lineStates : List Nat) (endPos : Nat)
    (st : VFoldState) : VFoldState :=
  let style := st.styleNext
  let startPos := st.startPos + 1
  let styleNext := styles.getD startPos 0
  let st : VFoldState := { st with styleNext := styleNext, startPos := startPos }
  let st :=
    if style = SCE_VIM_WORD then
      let buf :=
        if st.wordBuf.length < 7 then st.wordBuf.push (charAt doc (startPos - 1))
        else st.wordBuf
      if styleNext ≠ SCE_VIM_WORD then
        { st with wordBuf := "", levelNext := vimFoldWordDelta buf st.levelNext }
      else { st with wordBuf := buf }
    else st
  if st.startPos = st.lineStartNext then
    let wNext := lineStates.getD (st.lineCurrent + 1) 0
    let fnComment := wNext &&& 1
    let fnCont := (wNext >>> 1) &&& 1
    let st :=
      if st.fcComment ≠ 0 then
        { st with levelNext := st.levelNext + fnComment - st.fpComment }
      else st
    let st := { st with levelNext := st.levelNext + fnCont - st.fcCont }
    let lev := mkFoldLevel st.levelCurrent st.levelNext
    { st with
      records := st.records ++ [lev],
      lineCurrent := st.lineCurrent + 1,
      lineStartNext := min (lineStart doc (st.lineCurrent + 2)) endPos,
      levelCurrent := st.levelNext,
      fpComment := st.fcComment, fcComment := fnComment, fcCont := fnCont }
  else st

/-- Fuel-indexed iteration of the Vim folder loop. -/
def runVimFold (doc : List Char) (styles lineStates : List Nat) (endPos : Nat) :
    Nat → VFoldState → VFoldState
  | 0, st => st
  | fuel + 1, st =>
      if st.startPos < endPos then
        runVimFold doc styles lineStates endPos fuel (vimFoldStep doc styles lineStates endPos st)
      else st

/-- Full-document run of `FoldVimDoc`: the per-line packed fold levels. -/
def FoldVimDoc (doc : List Char) (styles lineStates : List Nat) : List Nat :=
  let endPos := doc.length
  let w0 := lineStates.getD 0 0
  let st0 : VFoldState :=
    { startPos := 0, lineCurrent := 0,
      lineStartNext := min (lineStart doc 1) endPos,
      levelCurrent := SC_FOLDLEVELBASE, levelNext := SC_FOLDLEVELBASE,
      fpComment := 0, fcComment := w0 &&& 1, fcCont := (w0 >>> 1) &&& 1,
      styleNext := styles.getD 0 0, wordBuf := "", records := [] }
  (runVimFold doc styles lineStates endPos (endPos + 2) st0).records

/-! ## Concrete inputs used by the scenario theorems -/

/-- Java keyword list used by the scenario runs (category 0 only). -/
def javaTestKW : JavaKeywordLists := { kwlKeyword := ["if", "import", "while", "return"] }

/-- Vim keyword/command lists used by the scenario runs. -/
def vimTestKW : VimKeywordLists :=
  { kwlKeyword := ["if", "endif", "while", "endwhile", "export", "def", "au", "autocmd"],
    kwlCommand := ["vim9script", "syn", "syntax"] }

/-- Java scenario: an import statement opening the file. -/
def jdocImport : List Char := "import foo.bar;\nx;\n".toList

/-- Java scenario: an import keyword that is not the first visible token. -/
def jdocImport2 : List Char := "a; import foo;\n".toList

/-- Java scenario: a parenthesized cast of an unknown identifier. -/
def jdocCast1 : List Char := "(Foo)bar\n".toList

/-- Java scenario: the same cast shape guarded by `while`. -/
def jdocCast2 : List Char := "while(Foo)bar\n".toList

/-- Java scenario: a template literal with one interpolation. -/
def jdocTpl : List Char := "s.\"\\\x7b x + 1 \x7dy\"\n".toList

/-- Java scenario: block comment with exactly one extra `*`. -/
def jdocDoc1 : List Char := "/**a*/x\n".toList

/-- Java scenario: block comment with no extra `*`. -/
def jdocDoc0 : List Char := "/*a*/x\n".toList

/-- Java scenario: block comment with two extra `*`. -/
def jdocDoc2 : List Char := "/***a*/x\n".toList

/-- Java scenario: block comment with three extra `*`. -/
def jdocDoc3 : List Char := "/****a*/x\n".toList

/-- Java scenario: documentation comment exercising at-tags, inline
tags and pseudo-HTML tags. -/
def jdocDocTags : List Char := "/** @a \x7b@b c\x7d <d> */\n".toList

/-- Java scenario for resume: a triple string whose last interior
character is `(`, closed on the next line, with a candidate cast on the
third line. -/
def jdocResume : List Char := "\"\"\"(\n\"\"\"\nFoo)bar\n".toList

/-- Java scenario: a malformed `\u` escape inside a string. -/
def jdocEsc : List Char := "\"\\uZZ\"\n".toList

/-- Vim scenario: a double quote after visible content. -/
def vdocQ1 : List Char := "x \"s\n".toList

/-- Vim scenario: a double quote opening the line. -/
def vdocQ2 : List Char := "\"c\n".toList

/-- Vim scenario: a double quote at line start in vim9script mode. -/
def vdocQ3 : List Char := "vim9script\n\"s\n".toList

/-- Vim scenario: a malformed `\x` escape inside a string. -/
def vdocEsc : List Char := "l\"\\xq\n".toList

/-- Vim scenario: a lone `endif`, which closes one fold level. -/
def vdocEnd : List Char := "endif\n".toList

/-- Java fold scenario: empty line followed by a brace pair. -/
def jdocBrace0 : List Char := "\n\x7b\n\x7d\n".toList

/-- Java fold scenario: a visible line followed by a brace pair. -/
def jdocBrace1 : List Char := "a\n\x7b\n\x7d\n".toList

/-! ## Theorems -/

/-- Each pushable nested state packs into a 3-bit slot. -/
theorem packNestedValue_lt (s : Nat) (h : isPushableNestedState s = true) :
    packNestedValue s < 8 := by
  simp only [isPushableNestedState, SCE_JAVA_DEFAULT, SCE_JAVA_TEMPLATE,
    SCE_JAVA_TRIPLE_TEMPLATE, Bool.or_eq_true, decide_eq_true_eq] at h
  rcases h with (h | h) | h <;> subst h <;> decide

/-- Slot encoding is injective on pushable states. -/
theorem unpackNestedValue_packNestedValue (s : Nat)
    (h : isPushableNestedState s = true) :
    unpackNestedValue (packNestedValue s) = s := by
  simp only [isPushableNestedState, SCE_JAVA_DEFAULT, SCE_JAVA_TEMPLATE,
    SCE_JAVA_TRIPLE_TEMPLATE, Bool.or_eq_true, decide_eq_true_eq] at h
  rcases h with (h | h) | h <;> subst h <;> decide

/-- Decoding slot-encoded pushable states recovers the list. -/
theorem unpackNestedSlots_packNestedSlots :
    ∀ (l : List Nat), (∀ s ∈ l, isPushableNestedState s = true) →
      unpackNestedSlots l.length (packNestedSlots l) = l := by
  intro l
  induction l with
  | nil => intro _; rfl
  | cons s rest ih =>
      intro h
      have hs := h s (List.mem_cons_self s rest)
      have hr : ∀ x ∈ rest, isPushableNestedState x = true :=
        fun x hx => h x (List.mem_cons_of_mem s hx)
      have h8 := packNestedValue_lt s hs
      show unpackNestedSlots (rest.length + 1)
        (packNestedValue s + 8 * packNestedSlots rest) = s :: rest
      rw [unpackNestedSlots, Nat.add_mul_mod_self_left, Nat.mod_eq_of_lt h8,
        Nat.add_mul_div_left _ _ (by norm_num), Nat.div_eq_of_lt h8,
        unpackNestedValue_packNestedValue s hs, Nat.zero_add, ih hr]

/-- Claim C2: for every nested-state stack of interpolation outer styles
whose depth is at most the maximum depth representable in the per-line
state word, unpacking the packed line-state value recovers exactly the
original stack: `UnpackLineState (PackLineState stack) = stack`, where
these are the functions the Java tokenizer invokes when persisting and
restoring the nested-state stack at line boundaries. -/
theorem java_pack_unpack_roundtrip (stack : List Nat)
    (hlen : stack.length ≤ MaxNestedStateCount)
    (hmem : ∀ s ∈ stack, isPushableNestedState s = true) :
    UnpackLineState (PackLineState stack) = stack := by
  have htake : stack.take MaxNestedStateCount = stack := List.take_of_length_le hlen
  have hl8 : stack.length < 8 :=
    lt_of_le_of_lt hlen (by norm_num [MaxNestedStateCount])
  simp only [PackLineState, UnpackLineState, htake]
  rw [Nat.add_mul_mod_self_left, Nat.mod_eq_of_lt hl8,
    Nat.add_mul_div_left _ _ (by norm_num), Nat.div_eq_of_lt hl8, Nat.zero_add,
    unpackNestedSlots_packNestedSlots stack hmem]

/-- Witness for C2 at a maximal-depth stack. -/
theorem java_pack_unpack_roundtrip_witness :
    UnpackLineState (PackLineState
      [SCE_JAVA_TEMPLATE, SCE_JAVA_DEFAULT, SCE_JAVA_TRIPLE_TEMPLATE, SCE_JAVA_TEMPLATE]) =
      [SCE_JAVA_TEMPLATE, SCE_JAVA_DEFAULT, SCE_JAVA_TRIPLE_TEMPLATE, SCE_JAVA_TEMPLATE] :=
  java_pack_unpack_roundtrip _ (by decide) (by decide)

/-- Claim C9: on `import foo.bar;` at the start of the file, `import`
is styled as a keyword and the persisted line-state word of that line
carries the import flag; the next line's word has it cleared; and the
flag is only set when `import` is the first visible token of the line. -/
theorem java_import_line_state :
    javaStyles javaTestKW jdocImport =
      [SCE_JAVA_WORD, SCE_JAVA_WORD, SCE_JAVA_WORD, SCE_JAVA_WORD, SCE_JAVA_WORD,
       SCE_JAVA_WORD, SCE_JAVA_DEFAULT, SCE_JAVA_IDENTIFIER, SCE_JAVA_IDENTIFIER,
       SCE_JAVA_IDENTIFIER, SCE_JAVA_OPERATOR, SCE_JAVA_IDENTIFIER, SCE_JAVA_IDENTIFIER,
       SCE_JAVA_IDENTIFIER, SCE_JAVA_OPERATOR, SCE_JAVA_DEFAULT, SCE_JAVA_IDENTIFIER,
       SCE_JAVA_OPERATOR, SCE_JAVA_DEFAULT] ∧
    javaLineStates javaTestKW jdocImport = [JavaLineStateMaskImport, 0] ∧
    javaLineStates javaTestKW jdocImport2 = [0] := by
  refine ⟨by decide, by decide, by decide⟩

/-- Claim C6: in `(Foo)bar` the unknown identifier `Foo` between `(`
and `)` followed directly by an identifier character is reclassified to
the class style (the cast heuristic), while after `while` the same
shape stays an ordinary identifier. -/
theorem java_cast_heuristic :
    javaStyles javaTestKW jdocCast1 =
      [SCE_JAVA_OPERATOR, SCE_JAVA_CLASS, SCE_JAVA_CLASS, SCE_JAVA_CLASS,
       SCE_JAVA_OPERATOR, SCE_JAVA_IDENTIFIER, SCE_JAVA_IDENTIFIER,
       SCE_JAVA_IDENTIFIER, SCE_JAVA_DEFAULT] ∧
    javaStyles javaTestKW jdocCast2 =
      [SCE_JAVA_WORD, SCE_JAVA_WORD, SCE_JAVA_WORD, SCE_JAVA_WORD, SCE_JAVA_WORD,
       SCE_JAVA_OPERATOR, SCE_JAVA_IDENTIFIER, SCE_JAVA_IDENTIFIER,
       SCE_JAVA_IDENTIFIER, SCE_JAVA_OPERATOR, SCE_JAVA_IDENTIFIER,
       SCE_JAVA_IDENTIFIER, SCE_JAVA_IDENTIFIER, SCE_JAVA_DEFAULT] := by
  refine ⟨by decide, by decide⟩

/-- Claim C4: in a template literal, the interpolation opener `\x7b`
preceded by a backslash is styled as the interpolation operator, the
inner expression `x + 1` is styled as ordinary code (identifier,
operator, number — not string), the matching unescaped closing brace is
the interpolation operator, the literal style resumes immediately after
it, and the nested-state stack returns to its pre-interpolation depth
(depth 1 while inside, empty after the close and at line end). -/
theorem java_template_interpolation :
    javaStyles javaTestKW jdocTpl =
      [SCE_JAVA_IDENTIFIER, SCE_JAVA_OPERATOR, SCE_JAVA_TEMPLATE, SCE_JAVA_OPERATOR2,
       SCE_JAVA_OPERATOR2, SCE_JAVA_DEFAULT, SCE_JAVA_IDENTIFIER, SCE_JAVA_DEFAULT,
       SCE_JAVA_OPERATOR2, SCE_JAVA_DEFAULT, SCE_JAVA_NUMBER, SCE_JAVA_DEFAULT,
       SCE_JAVA_OPERATOR2, SCE_JAVA_TEMPLATE, SCE_JAVA_TEMPLATE, SCE_JAVA_DEFAULT] ∧
    (runJava javaTestKW jdocTpl jdocTpl.length 4
        (jInitState 0 SCE_JAVA_DEFAULT [] chNul)).nested = [SCE_JAVA_TEMPLATE] ∧
    (ColouriseJavaDoc javaTestKW jdocTpl).nested = [] ∧
    javaLineStates javaTestKW jdocTpl = [0] := by
  refine ⟨by decide, by decide, by decide, by decide⟩

/-- Claim C5: a block comment opener `/*` immediately followed by
exactly one further `*` (and not two) is promoted to the documentation
comment style, an opener with zero or with two or more further `*`
stays an ordinary block comment, and the documentation style activates
the doc-tag sub-grammar (at-tags, inline `\x7b@…\x7d` tags and
`<tag>` pseudo-HTML tags). -/
theorem java_doc_comment_promotion :
    (∀ (kw : JavaKeywordLists) (doc : List Char) (endPos : Nat) (st : JState),
      st.state = SCE_JAVA_DEFAULT → charAt doc st.pos = '/' →
      charAt doc (st.pos + 1) = '*' →
      (((javaBody kw doc endPos st).state = SCE_JAVA_COMMENTBLOCKDOC) ↔
        (charAt doc (st.pos + 2) = '*' ∧ charAt doc (st.pos + 3) ≠ '*'))) ∧
    javaStyles javaTestKW jdocDoc1 =
      [SCE_JAVA_COMMENTBLOCKDOC, SCE_JAVA_COMMENTBLOCKDOC, SCE_JAVA_COMMENTBLOCKDOC,
       SCE_JAVA_COMMENTBLOCKDOC, SCE_JAVA_COMMENTBLOCKDOC, SCE_JAVA_COMMENTBLOCKDOC,
       SCE_JAVA_IDENTIFIER, SCE_JAVA_DEFAULT] ∧
    javaStyles javaTestKW jdocDoc0 =
      [SCE_JAVA_COMMENTBLOCK, SCE_JAVA_COMMENTBLOCK, SCE_JAVA_COMMENTBLOCK,
       SCE_JAVA_COMMENTBLOCK, SCE_JAVA_COMMENTBLOCK, SCE_JAVA_IDENTIFIER,
       SCE_JAVA_DEFAULT] ∧
    javaStyles javaTestKW jdocDoc2 =
      [SCE_JAVA_COMMENTBLOCK, SCE_JAVA_COMMENTBLOCK, SCE_JAVA_COMMENTBLOCK,
       SCE_JAVA_COMMENTBLOCK, SCE_JAVA_COMMENTBLOCK, SCE_JAVA_COMMENTBLOCK,
       SCE_JAVA_COMMENTBLOCK, SCE_JAVA_IDENTIFIER, SCE_JAVA_DEFAULT] ∧
    javaStyles javaTestKW jdocDoc3 =
      [SCE_JAVA_COMMENTBLOCK, SCE_JAVA_COMMENTBLOCK, SCE_JAVA_COMMENTBLOCK,
       SCE_JAVA_COMMENTBLOCK, SCE_JAVA_COMMENTBLOCK, SCE_JAVA_COMMENTBLOCK,
       SCE_JAVA_COMMENTBLOCK, SCE_JAVA_COMMENTBLOCK, SCE_JAVA_IDENTIFIER,
       SCE_JAVA_DEFAULT] ∧
    javaStyles javaTestKW jdocDocTags =
      [SCE_JAVA_COMMENTBLOCKDOC, SCE_JAVA_COMMENTBLOCKDOC, SCE_JAVA_COMMENTBLOCKDOC,
       SCE_JAVA_COMMENTBLOCKDOC, SCE_JAVA_COMMENTTAGAT, SCE_JAVA_COMMENTTAGAT,
       SCE_JAVA_COMMENTBLOCKDOC, SCE_JAVA_COMMENTTAGAT, SCE_JAVA_COMMENTTAGAT,
       SCE_JAVA_COMMENTTAGAT, SCE_JAVA_COMMENTBLOCKDOC, SCE_JAVA_COMMENTBLOCKDOC,
       SCE_JAVA_COMMENTTAGAT, SCE_JAVA_COMMENTBLOCKDOC, SCE_JAVA_COMMENTTAGHTML,
       SCE_JAVA_COMMENTTAGHTML, SCE_JAVA_COMMENTTAGHTML, SCE_JAVA_COMMENTBLOCKDOC,
       SCE_JAVA_COMMENTBLOCKDOC, SCE_JAVA_COMMENTBLOCKDOC, SCE_JAVA_DEFAULT] := by
  refine ⟨?_, by decide, by decide, by decide, by decide, by decide⟩
  intro kw doc endPos st h0 h1 h2
  simp [javaBody, javaDefaultDispatch, h0, h1, h2, SCE_JAVA_DEFAULT, SCE_JAVA_OPERATOR,
    SCE_JAVA_OPERATOR2, SCE_JAVA_NUMBER, SCE_JAVA_IDENTIFIER, SCE_JAVA_ANNOT,
    SCE_JAVA_COMMENTLINE, SCE_JAVA_COMMENTBLOCK, SCE_JAVA_COMMENTBLOCKDOC,
    SCE_JAVA_COMMENTTAGAT, SCE_JAVA_COMMENTTAGHTML, SCE_JAVA_CHARACTER, SCE_JAVA_STRING,
    SCE_JAVA_TEMPLATE, SCE_JAVA_TRIPLE_TEMPLATE, SCE_JAVA_TRIPLE_STRING,
    SCE_JAVA_ESCAPECHAR, SCE_JAVA_PLACEHOLDER, jSetState, jCommit, jChangeState, jForward]
  by_cases hc : charAt doc (st.pos + 2) = '*'
  · by_cases hd : charAt doc (st.pos + 3) = '*'
    · simp [hc, hd]
    · simp [hc, hd]
  · simp [hc]

/-- Witness for C5: on the concrete opener `/**a`, the promotion fires. -/
theorem java_doc_comment_promotion_witness :
    (javaBody javaTestKW jdocDoc1 jdocDoc1.length
        (jInitState 0 SCE_JAVA_DEFAULT [] chNul)).state = SCE_JAVA_COMMENTBLOCKDOC :=
  (java_doc_comment_promotion.1 javaTestKW jdocDoc1 jdocDoc1.length
    (jInitState 0 SCE_JAVA_DEFAULT [] chNul) rfl (by decide) (by decide)).mpr (by decide)

/-- Claim C1 counterexample: on `jdocResume` the suffix scan of line 2,
initialized from the persisted state word of line 1 (and the backward
scan, since the initial style is space-equivalent there), styles `Foo`
as an identifier while the full-document scan styles it as a class: the
full scan's previous-non-white character at that point is the `(` seen
inside the triple string, which the backward scan cannot recover (it
finds the closing quote instead). -/
theorem java_resume_mismatch :
    (ResumeJavaDoc javaTestKW jdocResume 2 (javaStyles javaTestKW jdocResume)
        ((javaLineStates javaTestKW jdocResume).getD 1 0)).styles =
      [SCE_JAVA_IDENTIFIER, SCE_JAVA_IDENTIFIER, SCE_JAVA_IDENTIFIER, SCE_JAVA_OPERATOR,
       SCE_JAVA_IDENTIFIER, SCE_JAVA_IDENTIFIER, SCE_JAVA_IDENTIFIER, SCE_JAVA_DEFAULT] ∧
    (javaStyles javaTestKW jdocResume).drop (lineStart jdocResume 2) =
      [SCE_JAVA_CLASS, SCE_JAVA_CLASS, SCE_JAVA_CLASS, SCE_JAVA_OPERATOR,
       SCE_JAVA_IDENTIFIER, SCE_JAVA_IDENTIFIER, SCE_JAVA_IDENTIFIER, SCE_JAVA_DEFAULT] ∧
    (ResumeJavaDoc javaTestKW jdocResume 2 (javaStyles javaTestKW jdocResume)
        ((javaLineStates javaTestKW jdocResume).getD 1 0)).styles ≠
      (javaStyles javaTestKW jdocResume).drop (lineStart jdocResume 2) := by
  refine ⟨by decide, by decide, by decide⟩

/-- Iterating the Java body on a finished position is the identity. -/
theorem runJava_of_done (kw : JavaKeywordLists) (doc : List Char) (endPos fuel : Nat)
    (st : JState) (h : ¬ st.pos < endPos) : runJava kw doc endPos fuel st = st := by
  cases fuel with
  | zero => rfl
  | succ fuel => simp [runJava, h]

/-- Claim C1 (amended): the tokenizer is a deterministic left-to-right
machine, so a suffix scan reproduces the full scan exactly when it is
continued from the full machine state reached at the boundary — running
`b` further steps from the state after `a` steps equals the `a + b`-step
run. The persisted per-line word together with the backward scan does
not always restore that state (the previous-non-white character can
differ), which is what the counterexample exhibits. -/
theorem java_run_composition (kw : JavaKeywordLists) (doc : List Char) (endPos a b : Nat)
    (st : JState) :
    runJava kw doc endPos b (runJava kw doc endPos a st) =
      runJava kw doc endPos (a + b) st := by
  induction a generalizing st with
  | zero => simp [runJava]
  | succ a ih =>
      rw [show a + 1 + b = (a + b) + 1 from by omega]
      by_cases hp : st.pos < endPos
      · rw [runJava, if_pos hp, runJava, if_pos hp, ih]
      · rw [runJava, if_neg hp, runJava, if_neg hp, runJava_of_done _ _ _ _ _ hp]

/-- Claim C8: a backslash escape whose fixed-length digit run is cut
short by a character failing the radix predicate never raises an error:
in both grammars the escape-style span is exactly the prefix recognized
so far (committed unchanged), and scanning re-dispatches the failing
character in the saved outer literal style at the same position. The
concrete runs show the resulting spans for `\u` (Java) and `\x` (Vim). -/
theorem escape_malformed_truncated :
    (∀ (kw : JavaKeywordLists) (doc : List Char) (endPos : Nat) (st : JState) (c : Char),
      st.state = SCE_JAVA_ESCAPECHAR → 2 ≤ st.esc.digitsLeft →
      charAt doc st.pos = c → isOctalOrHex c st.esc.hex = false →
      (javaBody kw doc endPos st).state = st.esc.outerState ∧
      (javaBody kw doc endPos st).pos = st.pos ∧
      (javaBody kw doc endPos st).styles =
        st.styles ++ List.replicate (st.pos - st.styleStartPos) SCE_JAVA_ESCAPECHAR) ∧
    (∀ (kw : VimKeywordLists) (doc : List Char) (endPos : Nat) (st : VState) (c : Char),
      st.state = SCE_VIM_ESCAPECHAR → 2 ≤ st.esc.digitsLeft →
      charAt doc st.pos = c → isOctalOrHex c st.esc.hex = false →
      (vimBody kw doc endPos st).state = SCE_VIM_STRING_DQ ∧
      (vimBody kw doc endPos st).pos = st.pos ∧
      (vimBody kw doc endPos st).styles =
        st.styles ++ List.replicate (st.pos - st.styleStartPos) SCE_VIM_ESCAPECHAR) ∧
    javaStyles javaTestKW jdocEsc =
      [SCE_JAVA_STRING, SCE_JAVA_ESCAPECHAR, SCE_JAVA_ESCAPECHAR, SCE_JAVA_STRING,
       SCE_JAVA_STRING, SCE_JAVA_STRING, SCE_JAVA_DEFAULT] ∧
    vimStyles vimTestKW vdocEsc =
      [SCE_VIM_IDENTIFIER, SCE_VIM_STRING_DQ, SCE_VIM_ESCAPECHAR, SCE_VIM_ESCAPECHAR,
       SCE_VIM_STRING_DQ, SCE_VIM_STRING_DQ] := by
  refine ⟨?_, ?_, by decide, by decide⟩
  · intro kw doc endPos st c h0 hd hc hx
    simp [javaBody, h0, hc, hx, atEscapeEnd, jSetState, jCommit, SCE_JAVA_DEFAULT,
      SCE_JAVA_OPERATOR, SCE_JAVA_OPERATOR2, SCE_JAVA_NUMBER, SCE_JAVA_IDENTIFIER,
      SCE_JAVA_ANNOT, SCE_JAVA_COMMENTLINE, SCE_JAVA_COMMENTBLOCK,
      SCE_JAVA_COMMENTBLOCKDOC, SCE_JAVA_COMMENTTAGAT, SCE_JAVA_COMMENTTAGHTML,
      SCE_JAVA_CHARACTER, SCE_JAVA_STRING, SCE_JAVA_TEMPLATE, SCE_JAVA_TRIPLE_TEMPLATE,
      SCE_JAVA_TRIPLE_STRING, SCE_JAVA_ESCAPECHAR, SCE_JAVA_PLACEHOLDER]
  · intro kw doc endPos st c h0 hd hc hx
    simp [vimBody, h0, hc, hx, atEscapeEnd, vSetState, vCommit, SCE_VIM_DEFAULT,
      SCE_VIM_OPERATOR, SCE_VIM_NUMBER, SCE_VIM_IDENTIFIER, SCE_VIM_STRING_DQ,
      SCE_VIM_ESCAPECHAR, SCE_VIM_STRING_SQ, SCE_VIM_REGEX, SCE_VIM_COMMENTLINE,
      SCE_VIM_BLOB_HEX, SCE_VIM_ENV_VARIABLE, SCE_VIM_OPTION, SCE_VIM_REGISTER]

/-- Witness for C8 at concrete mid-escape states (`Z` after `\u` in a
Java string, `q` after `\x` in a Vim string). -/
theorem escape_malformed_truncated_witness :
    (javaBody javaTestKW jdocEsc jdocEsc.length
        { jInitState 3 SCE_JAVA_ESCAPECHAR [] chNul with
          esc := { outerState := SCE_JAVA_STRING, digitsLeft := 4, hex := true },
          styleStartPos := 1 }).state = SCE_JAVA_STRING ∧
    (vimBody vimTestKW vdocEsc vdocEsc.length
        { vInitState 4 SCE_VIM_ESCAPECHAR 0 with
          esc := { outerState := SCE_VIM_STRING_DQ, digitsLeft := 2, hex := true },
          styleStartPos := 2 }).state = SCE_VIM_STRING_DQ := by
  constructor
  · exact (escape_malformed_truncated.1 javaTestKW jdocEsc jdocEsc.length _ 'Z'
      rfl (by decide) (by decide) (by decide)).1
  · exact (escape_malformed_truncated.2.1 vimTestKW vdocEsc vdocEsc.length _ 'q'
      rfl (by decide) (by decide) (by decide)).1

/-- Claim C10: a double quote met in the Vim default state opens a
double-quoted string when visible content precedes it on the logical
line or the vim9script flag is active, and opens a line comment
otherwise; the line-comment line-state flag is added exactly when no
visible character precedes it on the physical line and the comment path
is taken. The concrete runs show all three behaviours end to end. -/
theorem vim_quote_dispatch :
    (∀ (doc : List Char) (st : VState),
      charAt doc st.pos = '"' →
      ((vimDefaultDispatch doc st).state =
        (if st.logicalVisibleChars ≠ 0 ∨ st.lineState &&& VimLineStateMaskVim9Script ≠ 0
         then SCE_VIM_STRING_DQ else SCE_VIM_COMMENTLINE)) ∧
      ((vimDefaultDispatch doc st).lineState =
        (if st.lineVisibleChars = 0 ∧
            ¬ (st.logicalVisibleChars ≠ 0 ∨ st.lineState &&& VimLineStateMaskVim9Script ≠ 0)
         then st.lineState ||| VimLineStateMaskLineComment else st.lineState))) ∧
    vimStyles vimTestKW vdocQ1 =
      [SCE_VIM_IDENTIFIER, SCE_VIM_DEFAULT, SCE_VIM_STRING_DQ, SCE_VIM_STRING_DQ,
       SCE_VIM_STRING_DQ] ∧
    vimLineStates vimTestKW vdocQ1 = [0] ∧
    vimStyles vimTestKW vdocQ2 =
      [SCE_VIM_COMMENTLINE, SCE_VIM_COMMENTLINE, SCE_VIM_COMMENTLINE] ∧
    vimLineStates vimTestKW vdocQ2 = [VimLineStateMaskLineComment] ∧
    vimStyles vimTestKW vdocQ3 =
      [SCE_VIM_COMMANDS, SCE_VIM_COMMANDS, SCE_VIM_COMMANDS, SCE_VIM_COMMANDS,
       SCE_VIM_COMMANDS, SCE_VIM_COMMANDS, SCE_VIM_COMMANDS, SCE_VIM_COMMANDS,
       SCE_VIM_COMMANDS, SCE_VIM_COMMANDS, SCE_VIM_DEFAULT, SCE_VIM_STRING_DQ,
       SCE_VIM_STRING_DQ, SCE_VIM_STRING_DQ] ∧
    vimLineStates vimTestKW vdocQ3 =
      [VimLineStateMaskVim9Script, VimLineStateMaskVim9Script] := by
  refine ⟨?_, by decide, by decide, by decide, by decide, by decide, by decide⟩
  intro doc st h
  by_cases ht : st.logicalVisibleChars ≠ 0 ∨ st.lineState &&& VimLineStateMaskVim9Script ≠ 0
  · simp [vimDefaultDispatch, h, vSetState, vCommit, ht, SCE_VIM_STRING_DQ,
      SCE_VIM_COMMENTLINE]
  · by_cases hv : st.lineVisibleChars = 0
    · simp [vimDefaultDispatch, h, vSetState, vCommit, ht, hv, SCE_VIM_STRING_DQ,
        SCE_VIM_COMMENTLINE]
    · simp [vimDefaultDispatch, h, vSetState, vCommit, ht, hv, SCE_VIM_STRING_DQ,
        SCE_VIM_COMMENTLINE]

/-- Witness for C10 at the concrete quote of `vdocQ2` (line start, no
vim9script): the comment path with the flag. -/
theorem vim_quote_dispatch_witness :
    (vimDefaultDispatch vdocQ2 (vInitState 0 SCE_VIM_DEFAULT 0)).state =
      SCE_VIM_COMMENTLINE ∧
    (vimDefaultDispatch vdocQ2 (vInitState 0 SCE_VIM_DEFAULT 0)).lineState =
      VimLineStateMaskLineComment := by
  have h := vim_quote_dispatch.1 vdocQ2 (vInitState 0 SCE_VIM_DEFAULT 0) (by decide)
  refine ⟨?_, ?_⟩
  · rw [h.1]; decide
  · rw [h.2]; decide

/-- Disjoint bitwise-or of a low half below 2^16 with a shifted high
half is addition. -/
theorem or_low_16 (u n : Nat) (hu : u < 65536) : u ||| (n <<< 16) = 65536 * n + u := by
  have h := Nat.mul_add_lt_is_or (i := 16) (show u < 2 ^ 16 by norm_num at hu ⊢; omega) n
  rw [Nat.shiftLeft_eq, Nat.or_comm, Nat.mul_comm n (2 ^ 16)]
  calc ((2:Nat) ^ 16 * n) ||| u = 2 ^ 16 * n + u := h.symm
    _ = 65536 * n + u := by norm_num

/-- Setting the header bit over a value below 2^13 is addition. -/
theorem or_flag_13 (u : Nat) (hu : u < 8192) : u ||| 8192 = u + 8192 := by
  have h := Nat.mul_add_lt_is_or (i := 13) (show u < 2 ^ 13 by omega) 1
  rw [Nat.or_comm]
  calc (8192 : Nat) ||| u = 2 ^ 13 * 1 ||| u := by norm_num
    _ = 2 ^ 13 * 1 + u := h.symm
    _ = u + 8192 := by norm_num; omega

/-- Closed form of the packed fold-level record. -/
theorem mkFoldLevel_eq (u n : Nat) (hu : u < 4096) :
    mkFoldLevel u n = 65536 * n + u + (if u < n then 8192 else 0) := by
  unfold mkFoldLevel SC_FOLDLEVELHEADERFLAG
  by_cases h : u < n
  · rw [if_pos h, if_pos h, Nat.or_comm u (n <<< 16), Nat.or_assoc,
      or_flag_13 u (by omega), Nat.or_comm, or_low_16 _ n (by omega)]
    omega
  · rw [if_neg h, if_neg h, or_low_16 u n (by omega)]
    omega

/-- Every Vim folder iteration either leaves the records unchanged or
appends one packed record. -/
theorem vimFoldStep_records (doc : List Char) (styles lineStates : List Nat)
    (endPos : Nat) (st : VFoldState) :
    (vimFoldStep doc styles lineStates endPos st).records = st.records ∨
    ∃ u n, (vimFoldStep doc styles lineStates endPos st).records =
      st.records ++ [mkFoldLevel u n] := by
  simp only [vimFoldStep]
  repeat' split
  all_goals first
    | exact Or.inl rfl
    | exact Or.inr ⟨_, _, rfl⟩

/-- The Java boundary step appends exactly one packed record. -/
theorem javaFoldBoundary_records (doc : List Char) (styles lineStates : List Nat)
    (endPos : Nat) (st : JFoldState) :
    ∃ u n, (javaFoldBoundary doc styles lineStates endPos st).records =
      st.records ++ [mkFoldLevel u n] := by
  simp only [javaFoldBoundary]
  repeat' split
  all_goals exact ⟨_, _, rfl⟩

/-- The per-character depth scan leaves the records unchanged. -/
theorem javaFoldScanChar_records (doc : List Char) (styles : List Nat)
    (st : JFoldState) :
    (javaFoldScanChar doc styles st).records = st.records := by
  simp only [javaFoldScanChar]
  repeat' split
  all_goals rfl

/-- Every Java folder iteration either leaves the records unchanged or
appends one packed record. -/
theorem javaFoldStep_records (doc : List Char) (styles lineStates : List Nat)
    (endPos : Nat) (st : JFoldState) :
    (javaFoldStep doc styles lineStates endPos st).records = st.records ∨
    ∃ u n, (javaFoldStep doc styles lineStates endPos st).records =
      st.records ++ [mkFoldLevel u n] := by
  have hs := javaFoldScanChar_records doc styles st
  simp only [javaFoldStep]
  split
  · rcases javaFoldBoundary_records doc styles lineStates endPos
      (javaFoldScanChar doc styles st) with ⟨u, n, hr⟩
    exact Or.inr ⟨u, n, by rw [hr, hs]⟩
  · exact Or.inl hs

/-- Records accumulated by the Vim folder loop are packed records. -/
theorem runVimFold_records_shape (doc : List Char) (styles lineStates : List Nat)
    (endPos : Nat) :
    ∀ (fuel : Nat) (st : VFoldState),
      (∀ r ∈ st.records, ∃ u n, r = mkFoldLevel u n) →
      ∀ r ∈ (runVimFold doc styles lineStates endPos fuel st).records,
        ∃ u n, r = mkFoldLevel u n := by
  intro fuel
  induction fuel with
  | zero => intro st h; exact h
  | succ fuel ih =>
      intro st h
      rw [runVimFold]
      by_cases hp : st.startPos < endPos
      · rw [if_pos hp]
        apply ih
        rcases vimFoldStep_records doc styles lineStates endPos st with hr | ⟨u, n, hr⟩
        · rw [hr]; exact h
        · rw [hr]
          intro r hrm
          rcases List.mem_append.mp hrm with hm | hm
          · exact h r hm
          · exact ⟨u, n, List.mem_singleton.mp hm⟩
      · rw [if_neg hp]; exact h

/-- Records accumulated by the Java folder loop are packed records. -/
theorem runJavaFold_records_shape (doc : List Char) (styles lineStates : List Nat)
    (endPos : Nat) :
    ∀ (fuel : Nat) (st : JFoldState),
      (∀ r ∈ st.records, ∃ u n, r = mkFoldLevel u n) →
      ∀ r ∈ (runJavaFold doc styles lineStates endPos fuel st).records,
        ∃ u n, r = mkFoldLevel u n := by
  intro fuel
  induction fuel with
  | zero => intro st h; exact h
  | succ fuel ih =>
      intro st h
      rw [runJavaFold]
      by_cases hp : st.startPos < endPos
      · rw [if_pos hp]
        apply ih
        rcases javaFoldStep_records doc styles lineStates endPos st with hr | ⟨u, n, hr⟩
        · rw [hr]; exact h
        · rw [hr]
          intro r hrm
          rcases List.mem_append.mp hrm with hm | hm
          · exact h r hm
          · exact ⟨u, n, List.mem_singleton.mp hm⟩
      · rw [if_neg hp]; exact h

/-- Claim C3 counterexample: the Vim folder applies no clamp at all —
on the single line `endif` it stores next depth `SC_FOLDLEVELBASE - 1`,
strictly below the base level, not `max(next, base)`. -/
theorem vim_fold_next_below_base :
    FoldVimDoc vdocEnd (vimStyles vimTestKW vdocEnd) (vimLineStates vimTestKW vdocEnd) =
      [mkFoldLevel SC_FOLDLEVELBASE (SC_FOLDLEVELBASE - 1)] ∧
    ((FoldVimDoc vdocEnd (vimStyles vimTestKW vdocEnd)
        (vimLineStates vimTestKW vdocEnd)).getD 0 0) >>> 16 = SC_FOLDLEVELBASE - 1 ∧
    SC_FOLDLEVELBASE - 1 < SC_FOLDLEVELBASE := by
  refine ⟨by decide, by decide, by decide⟩

/-- Claim C3 (amended): every record either folder writes is the packed
pair `mkFoldLevel currentDepth nextDepth` — current depth in the low 16
bits, next depth in the high 16 bits, header flag set exactly when the
current depth is strictly below the next depth. The stored next depth
is not in general `max(nextDepth, base)`: the Vim folder never clamps
(see the counterexample), and the Java folder clamps before adding the
per-line comment/import flag deltas rather than after. -/
theorem fold_record_encoding :
    (∀ u n : Nat, u < 4096 →
      mkFoldLevel u n = 65536 * n + u + (if u < n then 8192 else 0) ∧
      (mkFoldLevel u n) >>> 16 = n ∧
      (mkFoldLevel u n) &&& 4095 = u ∧
      ((mkFoldLevel u n) &&& SC_FOLDLEVELHEADERFLAG ≠ 0 ↔ u < n)) ∧
    (∀ (doc : List Char) (styles lineStates : List Nat),
      ∀ r ∈ FoldVimDoc doc styles lineStates, ∃ u n, r = mkFoldLevel u n) ∧
    (∀ (doc : List Char) (styles lineStates : List Nat),
      ∀ r ∈ FoldJavaDoc doc styles lineStates, ∃ u n, r = mkFoldLevel u n) := by
  refine ⟨?_, ?_, ?_⟩
  · intro u n hu
    have he := mkFoldLevel_eq u n hu
    refine ⟨he, ?_, ?_, ?_⟩
    · rw [he, Nat.shiftRight_eq_div_pow]
      by_cases h : u < n <;> simp [h] <;> omega
    · rw [he, show (4095 : Nat) = 2 ^ 12 - 1 from by norm_num,
        Nat.and_pow_two_sub_one_eq_mod]
      by_cases h : u < n <;> simp [h] <;> omega
    · rw [he, show SC_FOLDLEVELHEADERFLAG = 2 ^ 13 from by
        norm_num [SC_FOLDLEVELHEADERFLAG], Nat.and_two_pow, Nat.testBit_to_div_mod]
      by_cases h : u < n <;> simp [h] <;> omega
  · intro doc styles lineStates r hr
    exact runVimFold_records_shape doc styles lineStates doc.length _ _
      (fun r hrm => absurd hrm (List.not_mem_nil r)) r hr
  · intro doc styles lineStates r hr
    exact runJavaFold_records_shape doc styles lineStates doc.length _ _
      (fun r hrm => absurd hrm (List.not_mem_nil r)) r hr

/-- Witness for C3 (amended) at a concrete record and a concrete run. -/
theorem fold_record_encoding_witness :
    ((mkFoldLevel 1024 1025) >>> 16 = 1025 ∧
      (mkFoldLevel 1024 1025) &&& SC_FOLDLEVELHEADERFLAG ≠ 0) ∧
    (∃ u n, (FoldVimDoc vdocEnd (vimStyles vimTestKW vdocEnd)
        (vimLineStates vimTestKW vdocEnd)).getD 0 0 = mkFoldLevel u n) := by
  constructor
  · have h := fold_record_encoding.1 1024 1025 (by decide)
    exact ⟨h.2.1, h.2.2.2.mpr (by decide)⟩
  · exact fold_record_encoding.2.1 vdocEnd (vimStyles vimTestKW vdocEnd)
      (vimLineStates vimTestKW vdocEnd) _ (by decide)

/-- Claim C7 counterexample: when the current line has no visible
content, the Java folder does not apply the next-line-brace lookahead:
on an empty line followed by `\x7b`, the empty line's record keeps next
depth at the base with no header flag (the header lands on the brace
line instead), contradicting the claimed behaviour. -/
theorem java_fold_lookahead_needs_visible :
    FoldJavaDoc jdocBrace0 (javaStyles javaTestKW jdocBrace0)
        (javaLineStates javaTestKW jdocBrace0) =
      [mkFoldLevel SC_FOLDLEVELBASE SC_FOLDLEVELBASE,
       mkFoldLevel SC_FOLDLEVELBASE (SC_FOLDLEVELBASE + 1),
       mkFoldLevel (SC_FOLDLEVELBASE + 1) SC_FOLDLEVELBASE] ∧
    ((FoldJavaDoc jdocBrace0 (javaStyles javaTestKW jdocBrace0)
        (javaLineStates javaTestKW jdocBrace0)).getD 0 0) &&&
      SC_FOLDLEVELHEADERFLAG = 0 ∧
    ((FoldJavaDoc jdocBrace0 (javaStyles javaTestKW jdocBrace0)
        (javaLineStates javaTestKW jdocBrace0)).getD 0 0) >>> 16 = SC_FOLDLEVELBASE := by
  refine ⟨by decide, by decide, by decide⟩

/-- Claim C7 (amended): the next-line-brace lookahead fires when the
current line HAS visible non-space-equivalent content (and neither the
line-comment nor the import per-line flag is set): the boundary step
then increments the next depth at the current line, writes the record
`mkFoldLevel levelCurrent (max levelNext base + 1)` (whose header flag
is set whenever the current depth is below that incremented depth), and
resumes scanning just past the brace so it is not counted again. -/
theorem java_fold_brace_lookahead (doc : List Char) (styles lineStates : List Nat)
    (endPos : Nat) (st : JFoldState)
    (hv : st.visibleChars ≠ 0) (hc : st.fcComment = 0) (hi : st.fcImport = 0)
    (hb : checkBraceOnNextLine doc styles st.lineCurrent ≠ 0) :
    (javaFoldBoundary doc styles lineStates endPos st).records =
      st.records ++ [mkFoldLevel st.levelCurrent (max st.levelNext SC_FOLDLEVELBASE + 1)] ∧
    (javaFoldBoundary doc styles lineStates endPos st).levelCurrent =
      max st.levelNext SC_FOLDLEVELBASE + 1 ∧
    (javaFoldBoundary doc styles lineStates endPos st).startPos =
      checkBraceOnNextLine doc styles st.lineCurrent + 1 := by
  simp [javaFoldBoundary, hv, hc, hi, hb]

/-- Witness for C7 (amended) at the visible line of `jdocBrace1`. -/
theorem java_fold_brace_lookahead_witness :
    (javaFoldBoundary jdocBrace1 (javaStyles javaTestKW jdocBrace1)
        (javaLineStates javaTestKW jdocBrace1) jdocBrace1.length
        { startPos := 2, lineCurrent := 0, lineStartNext := 2,
          levelCurrent := SC_FOLDLEVELBASE, levelNext := SC_FOLDLEVELBASE,
          fpComment := 0, fpImport := 0, fcComment := 0, fcImport := 0,
          style := SCE_JAVA_DEFAULT, styleNext := SCE_JAVA_OPERATOR,
          visibleChars := 1, records := [] }).records =
      [] ++ [mkFoldLevel SC_FOLDLEVELBASE (max SC_FOLDLEVELBASE SC_FOLDLEVELBASE + 1)] :=
  (java_fold_brace_lookahead jdocBrace1 (javaStyles javaTestKW jdocBrace1)
    (javaLineStates javaTestKW jdocBrace1) jdocBrace1.length _
    (by decide) (by decide) (by decide) (by decide)).1

end Notepad2
